import Mathlib

/-!
Update routing of `telebot` (`update.go`).

A shallow embedding of `Bot.SelectHandlerForUpdate`, `Bot.getHandler`,
`Bot.getMediaHandler`, `isUserInList`, `Bot.ProcessUpdate` and
`Bot.runHandler`, followed by theorems about the routing precedence and the
dispatch.

Modelling conventions.

* Go strings are Lean `String`s (decoded updates hold valid UTF-8, so a leading
  byte `0x07` / `0x0C` is a leading character U+0007 / U+000C).
* A nilable pointer or slice is an `Option`; a nil `HandlerFunc` is `none`.
  The handler type is a parameter `H`.
* The function mutates `*u`; the embedding returns the selected handler
  together with the Update as the call leaves it.
* A nil dereference or an index out of range is the result `Except.error`.
* The declarations used by `update.go` that live in other files (the two
  regular expressions, the endpoint constants) and `strings.EqualFold` are
  fields of `Package`, so every theorem over an arbitrary `Package` holds for
  the real ones.
-/

namespace Telebot

/-- Runtime failures of the Go code. -/
inductive GoPanic where
  | nilDereference
  | indexOutOfRange
  deriving DecidableEq, Repr

/-- Stand-in for the contents of a sub-object that routing only tests for
presence (`!= nil`) and never reads. -/
structure Body where
  tag : Nat
  deriving DecidableEq, Repr

/-- The fields of `User` read by `update.go`. -/
structure User where
  ID : Int
  Username : String
  deriving DecidableEq, Repr

/-- The field of `Chat` read by `update.go`. -/
structure Chat where
  ID : Int
  deriving DecidableEq, Repr

/-- The fields of `Message` read or written by `update.go`. -/
structure Message where
  PinnedMessage : Option Body := none
  Text : String := ""
  Command : String := ""
  Payload : String := ""
  Photo : Option Body := none
  Voice : Option Body := none
  Audio : Option Body := none
  Animation : Option Body := none
  Document : Option Body := none
  Sticker : Option Body := none
  Video : Option Body := none
  VideoNote : Option Body := none
  Contact : Option Body := none
  Location : Option Body := none
  Venue : Option Body := none
  Game : Option Body := none
  Dice : Option Body := none
  Invoice : Option Body := none
  Payment : Option Body := none
  RefundedPayment : Option Body := none
  TopicCreated : Option Body := none
  TopicReopened : Option Body := none
  TopicClosed : Option Body := none
  TopicEdited : Option Body := none
  GeneralTopicHidden : Option Body := none
  GeneralTopicUnhidden : Option Body := none
  WriteAccessAllowed : Option Body := none
  UserJoined : Option User := none
  UsersJoined : Option (List User) := none
  UserLeft : Option Body := none
  UserShared : Option Body := none
  ChatShared : Option Body := none
  NewGroupTitle : String := ""
  NewGroupPhoto : Option Body := none
  GroupPhotoDeleted : Bool := false
  GroupCreated : Bool := false
  SuperGroupCreated : Bool := false
  ChannelCreated : Bool := false
  MigrateTo : Int := 0
  MigrateFrom : Int := 0
  Chat : Option Telebot.Chat := none
  VideoChatStarted : Option Body := none
  VideoChatEnded : Option Body := none
  VideoChatParticipants : Option Body := none
  VideoChatScheduled : Option Body := none
  WebAppData : Option Body := none
  ProximityAlert : Option Body := none
  AutoDeleteTimer : Option Body := none
  deriving DecidableEq, Repr

/-- The fields of `Callback` read or written by `update.go`. -/
structure Callback where
  Data : String := ""
  Unique : String := ""
  /-- Stand-in for the fields of `Callback` that `update.go` neither reads nor
  writes. -/
  Rest : Body := ⟨0⟩
  deriving DecidableEq, Repr

/-- Update object represents an incoming update. -/
structure Update where
  ID : Int := 0
  Message : Option Telebot.Message := none
  EditedMessage : Option Telebot.Message := none
  ChannelPost : Option Telebot.Message := none
  EditedChannelPost : Option Telebot.Message := none
  MessageReaction : Option Body := none
  MessageReactionCount : Option Body := none
  Callback : Option Telebot.Callback := none
  Query : Option Body := none
  InlineResult : Option Body := none
  ShippingQuery : Option Body := none
  PreCheckoutQuery : Option Body := none
  Poll : Option Body := none
  PollAnswer : Option Body := none
  MyChatMember : Option Body := none
  ChatMember : Option Body := none
  ChatJoinRequest : Option Body := none
  Boost : Option Body := none
  BoostRemoved : Option Body := none
  BusinessConnection : Option Body := none
  BusinessMessage : Option Telebot.Message := none
  EditedBusinessMessage : Option Telebot.Message := none
  DeletedBusinessMessages : Option Body := none
  deriving DecidableEq, Repr

/-- A compiled regular expression, seen through the one method the source
calls: `FindAllStringSubmatch(s, -1)`; the nil result is `[]`. -/
structure Regexp where
  FindAllStringSubmatch : String → List (List String)

/-- What `update.go` uses and does not declare: the package-level regular
expressions, `strings.EqualFold` and the endpoint constants. -/
structure Package where
  cmdRx : Regexp
  cbackRx : Regexp
  EqualFold : String → String → Bool
  OnPinned : String
  OnCommand : String
  OnText : String
  OnMedia : String
  OnPhoto : String
  OnVoice : String
  OnAudio : String
  OnAnimation : String
  OnDocument : String
  OnSticker : String
  OnVideo : String
  OnVideoNote : String
  OnContact : String
  OnLocation : String
  OnVenue : String
  OnGame : String
  OnDice : String
  OnInvoice : String
  OnPayment : String
  OnRefund : String
  OnTopicCreated : String
  OnTopicReopened : String
  OnTopicClosed : String
  OnTopicEdited : String
  OnGeneralTopicHidden : String
  OnGeneralTopicUnhidden : String
  OnWriteAccessAllowed : String
  OnAddedToGroup : String
  OnUserJoined : String
  OnUserLeft : String
  OnUserShared : String
  OnChatShared : String
  OnNewGroupTitle : String
  OnNewGroupPhoto : String
  OnGroupPhotoDeleted : String
  OnGroupCreated : String
  OnSuperGroupCreated : String
  OnChannelCreated : String
  OnMigration : String
  OnVideoChatStarted : String
  OnVideoChatEnded : String
  OnVideoChatParticipants : String
  OnVideoChatScheduled : String
  OnWebApp : String
  OnProximityAlert : String
  OnAutoDeleteTimer : String
  OnEdited : String
  OnChannelPost : String
  OnEditedChannelPost : String
  OnCallback : String
  OnQuery : String
  OnInlineResult : String
  OnShipping : String
  OnCheckout : String
  OnPoll : String
  OnPollAnswer : String
  OnMyChatMember : String
  OnChatMember : String
  OnChatJoinRequest : String
  OnBoost : String
  OnBoostRemoved : String
  OnBusinessConnection : String
  OnBusinessMessage : String
  OnEditedBusinessMessage : String
  OnDeletedBusinessMessages : String
  OnAny : String

/-- The fields of `Bot` read by `SelectHandlerForUpdate`: the bot's own user
(`*User`) and the handler table (`map[string]HandlerFunc`; a missing key and a
nil value both read back as nil). -/
structure Bot (H : Type) where
  Me : Option User
  handlers : String → Option H

/-- Go's `strings.TrimLeft(s, cutset)`. -/
def TrimLeft (s cutset : String) : String :=
  String.mk (s.data.dropWhile (fun c => cutset.data.contains c))

/-- Slice indexing `xs[i]`, failing when `i` is out of range. -/
def index (xs : List String) (i : Nat) : Except GoPanic String :=
  match xs[i]? with
  | some x => .ok x
  | none => .error .indexOutOfRange

/-- The test `data != "" && data[0] == '\f'`. -/
def hasSentinel (data : String) : Bool :=
  data.data.head? == some '\x0c'

variable {H : Type}

/-- `func (b *Bot) getHandler(end string) HandlerFunc`. -/
def Bot.getHandler (b : Bot H) (endpoint : String) : Option H :=
  b.handlers endpoint

/-- `func (b *Bot) getMediaHandler(m *Message) (h HandlerFunc, isMedia bool)`:
the `switch` picks the first populated media field, `default` returns
`nil, false`; a nil specific handler is replaced by the `OnMedia` one. -/
def Bot.getMediaHandler (pkg : Package) (b : Bot H) (m : Message) : Option H × Bool :=
  let picked : Option (Option H) :=
    if m.Photo.isSome then some (b.getHandler pkg.OnPhoto)
    else if m.Voice.isSome then some (b.getHandler pkg.OnVoice)
    else if m.Audio.isSome then some (b.getHandler pkg.OnAudio)
    else if m.Animation.isSome then some (b.getHandler pkg.OnAnimation)
    else if m.Document.isSome then some (b.getHandler pkg.OnDocument)
    else if m.Sticker.isSome then some (b.getHandler pkg.OnSticker)
    else if m.Video.isSome then some (b.getHandler pkg.OnVideo)
    else if m.VideoNote.isSome then some (b.getHandler pkg.OnVideoNote)
    else none
  match picked with
  | none => (none, false)
  | some none => (b.getHandler pkg.OnMedia, true)
  | some (some h) => (some h, true)

/-- `func isUserInList(user *User, list []User) bool`; `user.ID` is read once
per element, so a nil `user` fails on a non-empty list only. -/
def isUserInList (user : Option User) : List User → Except GoPanic Bool
  | [] => .ok false
  | user2 :: rest =>
    match user with
    | none => .error .nilDereference
    | some usr => if usr.ID = user2.ID then .ok true else isUserInList user rest

/-- Line 68: `botName != "" && !strings.EqualFold(b.Me.Username, botName)`;
`b.Me` is dereferenced only when `botName` is not empty. -/
def Bot.otherBot (pkg : Package) (b : Bot H) (botName : String) : Except GoPanic Bool :=
  if botName ≠ "" then
    match b.Me with
    | none => .error .nilDereference
    | some me => .ok (!pkg.EqualFold me.Username botName)
  else .ok false

/-- Lines 83-88, "1:1 satisfaction": the handler under the message text, else
the `OnText` handler. -/
def Bot.textHandler (pkg : Package) (b : Bot H) (m : Message) : Option H :=
  match b.getHandler m.Text with
  | some h => some h
  | none => b.getHandler pkg.OnText

/-- Lines 63-88, the body of `if m.Text != ""`; every path returns. -/
def Bot.selectText (pkg : Package) (b : Bot H) (m : Message) :
    Except GoPanic (Option H × Message) :=
  match pkg.cmdRx.FindAllStringSubmatch m.Text with
  | [] => .ok (b.textHandler pkg m, m)
  | m0 :: _ =>
    match index m0 1 with
    | .error e => .error e
    | .ok command =>
    match index m0 3 with
    | .error e => .error e
    | .ok botName =>
    match b.otherBot pkg botName with
    | .error e => .error e
    | .ok true => .ok (none, m)
    | .ok false =>
    match index m0 5 with
    | .error e => .error e
    | .ok payload =>
      let m := { m with Command := command, Payload := payload }
      match b.getHandler command with
      | some h => .ok (some h, m)
      | none =>
        match b.getHandler pkg.OnCommand with
        | some h => .ok (some h, m)
        | none => .ok (b.textHandler pkg m, m)

/-- Lines 141-142, `wasAdded`, with Go's short-circuit evaluation. -/
def Bot.wasAdded (b : Bot H) (m : Message) : Except GoPanic Bool :=
  let single : Except GoPanic Bool :=
    match m.UserJoined with
    | none => .ok false
    | some joined =>
      match b.Me with
      | none => .error .nilDereference
      | some me => .ok (joined.ID == me.ID)
  match single with
  | .error e => .error e
  | .ok true => .ok true
  | .ok false =>
    match m.UsersJoined with
    | none => .ok false
    | some list => isUserInList b.Me list

/-- Lines 151-209. Every `b.getHandler(...)` there is a statement whose result
is dropped, so the only effect of this stretch is the migration assignment
`m.MigrateFrom = m.Chat.ID` (line 183); control then leaves the `Message`
block without returning. -/
def migrate (m : Message) : Except GoPanic Message :=
  if m.MigrateTo ≠ 0 then
    match m.Chat with
    | none => .error .nilDereference
    | some chat => .ok { m with MigrateFrom := chat.ID }
  else .ok m

/-- Lines 95-209: the marker chain after the media check. The first component
is `some h` when the code returns `h`, `none` when it falls out of the
`Message` block. -/
def Bot.selectMarker (pkg : Package) (b : Bot H) (m : Message) :
    Except GoPanic (Option (Option H) × Message) :=
  if m.Contact.isSome then .ok (some (b.getHandler pkg.OnContact), m)
  else if m.Location.isSome then .ok (some (b.getHandler pkg.OnLocation), m)
  else if m.Venue.isSome then .ok (some (b.getHandler pkg.OnVenue), m)
  else if m.Game.isSome then .ok (some (b.getHandler pkg.OnGame), m)
  else if m.Dice.isSome then .ok (some (b.getHandler pkg.OnDice), m)
  else if m.Invoice.isSome then .ok (some (b.getHandler pkg.OnInvoice), m)
  else if m.Payment.isSome then .ok (some (b.getHandler pkg.OnPayment), m)
  else if m.RefundedPayment.isSome then .ok (some (b.getHandler pkg.OnRefund), m)
  else if m.TopicCreated.isSome then .ok (some (b.getHandler pkg.OnTopicCreated), m)
  else if m.TopicReopened.isSome then .ok (some (b.getHandler pkg.OnTopicReopened), m)
  else if m.TopicClosed.isSome then .ok (some (b.getHandler pkg.OnTopicClosed), m)
  else if m.TopicEdited.isSome then .ok (some (b.getHandler pkg.OnTopicEdited), m)
  else if m.GeneralTopicHidden.isSome then
    .ok (some (b.getHandler pkg.OnGeneralTopicHidden), m)
  else if m.GeneralTopicUnhidden.isSome then
    .ok (some (b.getHandler pkg.OnGeneralTopicUnhidden), m)
  else if m.WriteAccessAllowed.isSome then
    .ok (some (b.getHandler pkg.OnWriteAccessAllowed), m)
  else
    match b.wasAdded m with
    | .error e => .error e
    | .ok wasAdded =>
      if m.GroupCreated || m.SuperGroupCreated || wasAdded then
        .ok (some (b.getHandler pkg.OnAddedToGroup), m)
      else if m.UserJoined.isSome || m.UsersJoined.isSome then
        .ok (some (b.getHandler pkg.OnUserJoined), m)
      else
        match migrate m with
        | .error e => .error e
        | .ok m => .ok (none, m)

/-- Lines 53-209, the body of `if u.Message != nil`. -/
def Bot.selectMessage (pkg : Package) (b : Bot H) (m : Message) :
    Except GoPanic (Option (Option H) × Message) :=
  if m.PinnedMessage.isSome then .ok (some (b.getHandler pkg.OnPinned), m)
  else
    let m := { m with Text := TrimLeft m.Text "\x07" }
    if m.Text ≠ "" then
      match b.selectText pkg m with
      | .error e => .error e
      | .ok (h, m) => .ok (some h, m)
    else
      match b.getMediaHandler pkg m with
      | (h, true) => .ok (some h, m)
      | (_, false) => b.selectMarker pkg m

/-- Lines 230-244, the body of `if u.Callback != nil`. -/
def Bot.selectCallback (pkg : Package) (b : Bot H) (u : Update) (cb : Callback) :
    Except GoPanic (Option H × Update) :=
  if hasSentinel cb.Data then
    match pkg.cbackRx.FindAllStringSubmatch cb.Data with
    | [] => .ok (b.getHandler pkg.OnCallback, u)
    | m0 :: _ =>
      match index m0 1 with
      | .error e => .error e
      | .ok unique =>
      match index m0 3 with
      | .error e => .error e
      | .ok payload =>
        match b.getHandler ("\x0c" ++ unique) with
        | some h =>
          .ok (some h, { u with Callback := some { cb with Unique := unique, Data := payload } })
        | none => .ok (b.getHandler pkg.OnCallback, u)
  else .ok (b.getHandler pkg.OnCallback, u)

/-- Lines 212-299, what follows the `Message` block. The lookups for
`EditedMessage`, `ChannelPost` (and its pinned sub-case) and
`EditedChannelPost` (lines 212-228) are statements whose result is dropped, so
the first field that decides anything is `Callback`. -/
def Bot.selectOther (pkg : Package) (b : Bot H) (u : Update) :
    Except GoPanic (Option H × Update) :=
  match u.Callback with
  | some cb => b.selectCallback pkg u cb
  | none =>
    if u.Query.isSome then .ok (b.getHandler pkg.OnQuery, u)
    else if u.InlineResult.isSome then .ok (b.getHandler pkg.OnInlineResult, u)
    else if u.ShippingQuery.isSome then .ok (b.getHandler pkg.OnShipping, u)
    else if u.PreCheckoutQuery.isSome then .ok (b.getHandler pkg.OnCheckout, u)
    else if u.Poll.isSome then .ok (b.getHandler pkg.OnPoll, u)
    else if u.PollAnswer.isSome then .ok (b.getHandler pkg.OnPollAnswer, u)
    else if u.MyChatMember.isSome then .ok (b.getHandler pkg.OnMyChatMember, u)
    else if u.ChatMember.isSome then .ok (b.getHandler pkg.OnChatMember, u)
    else if u.ChatJoinRequest.isSome then .ok (b.getHandler pkg.OnChatJoinRequest, u)
    else if u.Boost.isSome then .ok (b.getHandler pkg.OnBoost, u)
    else if u.BoostRemoved.isSome then .ok (b.getHandler pkg.OnBoostRemoved, u)
    else if u.BusinessConnection.isSome then
      .ok (b.getHandler pkg.OnBusinessConnection, u)
    else if u.BusinessMessage.isSome then .ok (b.getHandler pkg.OnBusinessMessage, u)
    else if u.EditedBusinessMessage.isSome then
      .ok (b.getHandler pkg.OnEditedBusinessMessage, u)
    else if u.DeletedBusinessMessages.isSome then
      .ok (b.getHandler pkg.OnDeletedBusinessMessages, u)
    else .ok (none, u)

/-- `func (b *Bot) SelectHandlerForUpdate(u *Update) HandlerFunc`: the selected
handler (`none` is nil) and the Update as the call leaves it. -/
def Bot.SelectHandlerForUpdate (pkg : Package) (b : Bot H) (u : Update) :
    Except GoPanic (Option H × Update) :=
  match u.Message with
  | none => b.selectOther pkg u
  | some m =>
    match b.selectMessage pkg m with
    | .error e => .error e
    | .ok (some h, m) => .ok (h, { u with Message := some m })
    | .ok (none, m) => b.selectOther pkg { u with Message := some m }

/-- `HandlerFunc`, a function from a context to an error; `none` is the nil
error. The context type `C` is declared in another file and is a parameter.
What a handler body does besides returning is outside the model. -/
abbrev HandlerFunc (C E : Type) : Type :=
  C → Option E

/-- What a dispatch does, as its caller can observe it: the call `h(c)` of a
handler and the call `b.OnError(err, c)` of the error sink. -/
inductive Event (C E : Type) where
  | handler (h : HandlerFunc C E) (c : C)
  | onError (err : E) (c : C)

/-- What `ProcessUpdate` and `runHandler` use and `update.go` does not declare,
besides the handler table: the fields `synchronous` and `fallbackHandler` of
`Bot` and the method `NewContext`. The fallback handler is not nil (section
4.4 of the spec: "to guarantee a non-nil handler is always invoked"), and the
error sink `OnError` is always callable; its calls are events. -/
structure Dispatch (C E : Type) where
  synchronous : Bool
  fallbackHandler : HandlerFunc C E
  NewContext : Update → C

/-- The effects of a call: the events that happened before it returned, and
for each goroutine it started the events of its body, which happen at some
time not ordered with the return. -/
structure Effects (C E : Type) where
  inline : List (Event C E)
  spawned : List (List (Event C E))

/-- The closure `f` of `runHandler` (lines 338-342): call the handler, and
pass a non-nil error to `OnError`. -/
def runBody {C E : Type} (h : HandlerFunc C E) (c : C) : List (Event C E) :=
  match h c with
  | some err => [.handler h c, .onError err c]
  | none => [.handler h c]

/-- `func (b *Bot) runHandler(h HandlerFunc, c Context)`: `f()` when the bot is
synchronous, `go f()` otherwise. -/
def Dispatch.runHandler {C E : Type} (d : Dispatch C E) (h : HandlerFunc C E) (c : C) :
    Effects C E :=
  if d.synchronous then { inline := runBody h c, spawned := [] }
  else { inline := [], spawned := [runBody h c] }

/-- `func (b *Bot) ProcessUpdate(u Update)`: the Update is passed by value, the
selection works on this copy, and the context is built from the copy as the
selection left it. -/
def Bot.ProcessUpdate {C E : Type} (pkg : Package) (b : Bot (HandlerFunc C E))
    (d : Dispatch C E) (u : Update) : Except GoPanic (Effects C E) :=
  match b.SelectHandlerForUpdate pkg u with
  | .error e => .error e
  | .ok (handler, u) =>
    let handler : Option (HandlerFunc C E) :=
      match handler with
      | some h => some h
      | none => b.getHandler pkg.OnAny
    let handler : HandlerFunc C E :=
      match handler with
      | some h => h
      | none => d.fallbackHandler
    let c := d.NewContext u
    .ok (d.runHandler handler c)

/-! Concrete instances of the declarations that are not in `update.go` -/

/-- A token character: a letter, a digit or the underscore. -/
def isWord (c : Char) : Bool :=
  c.isAlphanum || c == '_'

/-- A whitespace character. -/
def isSpace (c : Char) : Bool :=
  c == ' ' || c == '\t' || c == '\n' || c == '\r' || c == '\x0c'

/-- Modelled from the spec: the command grammar of `cmdRx`, which another file
declares. Section 6 gives the syntax `/<command>[@<botname>] <payload>`, and
the comment at line 65 of `update.go`, `Syntax: "</command>@<bot> <payload>"`,
puts the slash inside the command token: a slash and a token of letters,
digits and underscores (together the command), optionally `@` and a second
token, then a whitespace character or the end of the text, then the rest of
the line. The result is the submatch slice
`[whole, command, @qualifier, qualifier, separator, payload]`. -/
def commandAt (cs : List Char) : Option (List String) :=
  match cs with
  | '/' :: rest =>
    let name := rest.takeWhile isWord
    let afterCmd := rest.dropWhile isWord
    if name = [] then none
    else
      let cmd := '/' :: name
      let qual : List Char :=
        match afterCmd with
        | '@' :: t => t.takeWhile isWord
        | _ => []
      let at_ : List Char := if qual = [] then [] else '@' :: qual
      let afterQual := afterCmd.drop at_.length
      match afterQual with
      | [] => some [String.mk (cmd ++ at_), String.mk cmd, String.mk at_, String.mk qual, "", ""]
      | c :: t =>
        if isSpace c then
          let payload := t.takeWhile (fun x => x != '\n')
          some [String.mk (cmd ++ at_ ++ c :: payload), String.mk cmd, String.mk at_,
            String.mk qual, String.mk [c], String.mk payload]
        else none
  | _ => none

/-- Modelled from the spec: the regular expression `cmdRx`, which `update.go`
uses and another file declares. Section 4.2: a command prefix marker, "then a
token of letters/digits/underscore (the command name), optionally followed by
`@` and a second token (a bot username qualifier), then whitespace, then the
remainder of the line verbatim (the payload, possibly empty)". The marker is
the slash of section 6, and it belongs to capture group 1, as the comment at
line 65 of `update.go` writes the command token `/command`. The whitespace may
be replaced by the end of the text (section 8 parses `/unknown` as a command),
and the capture groups are numbered as the source reads them: 1 the command, 3
the qualifier, 5 the payload. The expression is anchored, so there is at most
one match, and a text that does not begin with a slash has none. -/
def specCmdRx : Regexp where
  FindAllStringSubmatch s :=
    match commandAt s.data with
    | some m0 => [m0]
    | none => []

/-- Modelled from the spec: the regular expression `cbackRx`, which `update.go`
uses and another file declares. Section 4.3: "sentinel, then a
unique-identifier token, then a separator, then an arbitrary payload
substring"; the separator is the `|` of the example in section 8, and the
capture groups are numbered as the source reads them: 1 the unique identifier,
3 the payload. The sentinel character is an argument. -/
def specCbackRx (sentinel : Char) : Regexp where
  FindAllStringSubmatch s :=
    match s.data with
    | [] => []
    | c :: rest =>
      let unique := rest.takeWhile isWord
      if c = sentinel ∧ unique ≠ [] then
        match rest.dropWhile isWord with
        | '|' :: payload =>
          [[s, String.mk unique, String.mk ('|' :: payload), String.mk payload]]
        | _ => []
      else []

/-- A case-insensitive comparison for the examples: ASCII letters are compared
without case, every other character exactly. It agrees with Go's
`strings.EqualFold` when both strings are ASCII; on other text Go folds by
Unicode simple folding (U+212A equals `k`), which this function does not. The
theorems do not use it: they hold for every `Package.EqualFold`. -/
def asciiEqualFold (s t : String) : Bool :=
  s.data.map Char.toLower == t.data.map Char.toLower

/-- Modelled from the spec: the endpoint constants, which `update.go` uses and
another file declares. Section 3 (d) calls them symbolic category constants
sharing the lookup table with command names and message texts; here each is
the BEL character followed by the category name. The regular expressions are
arguments. -/
def specPackage (cmdRx cbackRx : Regexp) : Package where
  cmdRx := cmdRx
  cbackRx := cbackRx
  EqualFold := asciiEqualFold
  OnPinned := "\x07pinned"
  OnCommand := "\x07command"
  OnText := "\x07text"
  OnMedia := "\x07media"
  OnPhoto := "\x07photo"
  OnVoice := "\x07voice"
  OnAudio := "\x07audio"
  OnAnimation := "\x07animation"
  OnDocument := "\x07document"
  OnSticker := "\x07sticker"
  OnVideo := "\x07video"
  OnVideoNote := "\x07video_note"
  OnContact := "\x07contact"
  OnLocation := "\x07location"
  OnVenue := "\x07venue"
  OnGame := "\x07game"
  OnDice := "\x07dice"
  OnInvoice := "\x07invoice"
  OnPayment := "\x07payment"
  OnRefund := "\x07refund"
  OnTopicCreated := "\x07topic_created"
  OnTopicReopened := "\x07topic_reopened"
  OnTopicClosed := "\x07topic_closed"
  OnTopicEdited := "\x07topic_edited"
  OnGeneralTopicHidden := "\x07general_topic_hidden"
  OnGeneralTopicUnhidden := "\x07general_topic_unhidden"
  OnWriteAccessAllowed := "\x07write_access_allowed"
  OnAddedToGroup := "\x07added_to_group"
  OnUserJoined := "\x07user_joined"
  OnUserLeft := "\x07user_left"
  OnUserShared := "\x07user_shared"
  OnChatShared := "\x07chat_shared"
  OnNewGroupTitle := "\x07new_chat_title"
  OnNewGroupPhoto := "\x07new_chat_photo"
  OnGroupPhotoDeleted := "\x07chat_photo_deleted"
  OnGroupCreated := "\x07group_created"
  OnSuperGroupCreated := "\x07supergroup_created"
  OnChannelCreated := "\x07channel_created"
  OnMigration := "\x07migration"
  OnVideoChatStarted := "\x07video_chat_started"
  OnVideoChatEnded := "\x07video_chat_ended"
  OnVideoChatParticipants := "\x07video_chat_participants_invited"
  OnVideoChatScheduled := "\x07video_chat_scheduled"
  OnWebApp := "\x07web_app"
  OnProximityAlert := "\x07proximity_alert_triggered"
  OnAutoDeleteTimer := "\x07message_auto_delete_timer_changed"
  OnEdited := "\x07edited"
  OnChannelPost := "\x07channel_post"
  OnEditedChannelPost := "\x07edited_channel_post"
  OnCallback := "\x07callback"
  OnQuery := "\x07query"
  OnInlineResult := "\x07inline_result"
  OnShipping := "\x07shipping_query"
  OnCheckout := "\x07pre_checkout_query"
  OnPoll := "\x07poll"
  OnPollAnswer := "\x07poll_answer"
  OnMyChatMember := "\x07my_chat_member"
  OnChatMember := "\x07chat_member"
  OnChatJoinRequest := "\x07chat_join_request"
  OnBoost := "\x07boost_updated"
  OnBoostRemoved := "\x07boost_removed"
  OnBusinessConnection := "\x07business_connection"
  OnBusinessMessage := "\x07business_message"
  OnEditedBusinessMessage := "\x07edited_business_message"
  OnDeletedBusinessMessages := "\x07deleted_business_messages"
  OnAny := "\x07any"

/-- Modelled from the spec: the package with the grammars and constants above,
which `update.go` uses and other files declare, with the sentinel of the
source (`'\f'`, U+000C) in the callback grammar. -/
def pkg0 : Package :=
  specPackage specCmdRx (specCbackRx '\x0c')

/-- A handler table given by its entries; handlers are numbered. -/
def table (entries : List (String × Nat)) : String → Option Nat :=
  fun key => (entries.find? (fun e => e.1 == key)).map Prod.snd

/-- A bot named `MyBot` with the given handler table. -/
def myBot (entries : List (String × Nat)) : Bot Nat where
  Me := some { ID := 1, Username := "MyBot" }
  handlers := table entries

/-- A bot named `MyBot` whose handler under `/start` returns the error `boom`
and whose handler under `OnAny` returns no error; its contexts are Updates. -/
def failingBot : Bot (HandlerFunc Update String) where
  Me := some { ID := 1, Username := "MyBot" }
  handlers := fun key =>
    if key = "/start" then some (fun _ => some "boom")
    else if key = "\x07any" then some (fun _ => none)
    else none

/-- A synchronous dispatch whose fallback handler returns no error and whose
context is the Update itself. -/
def syncDispatch : Dispatch Update String where
  synchronous := true
  fallbackHandler := fun _ => none
  NewContext := fun u => u

/-! Vocabulary of the statements -/

/-- The sanitized text of a message, `strings.TrimLeft(m.Text, "\a")`. -/
def sanitized (m : Message) : String :=
  TrimLeft m.Text "\x07"

/-- The Update after the call when only the message changed. -/
def Update.withMessage (u : Update) (m : Telebot.Message) : Update :=
  { u with Message := some m }

/-- The text parses as a command: it is not empty (the parser is consulted on
non-empty text only) and the first match of `cmdRx` carries `command`,
`botName` and `payload` in the capture groups 1, 3 and 5. -/
def ParsesAs (pkg : Package) (text command botName payload : String) : Prop :=
  text ≠ "" ∧ ∃ m0 rest, pkg.cmdRx.FindAllStringSubmatch text = m0 :: rest ∧
    m0[1]? = some command ∧ m0[3]? = some botName ∧ m0[5]? = some payload

/-- The qualifier is acceptable: absent, or equal to the bot's username up to
case. -/
def Acceptable (pkg : Package) (b : Bot H) (botName : String) : Prop :=
  botName = "" ∨ ∃ me, b.Me = some me ∧ pkg.EqualFold me.Username botName = true

/-- The callback data parses under the callback grammar: the first match of
`cbackRx` carries `unique` and `payload` in the capture groups 1 and 3. -/
def ParsesCallback (pkg : Package) (data unique payload : String) : Prop :=
  ∃ m0 rest, pkg.cbackRx.FindAllStringSubmatch data = m0 :: rest ∧
    m0[1]? = some unique ∧ m0[3]? = some payload

/-- The message with its eight media fields cleared. -/
def clearMedia (m : Message) : Message :=
  { m with
    Photo := none, Voice := none, Audio := none, Animation := none, Document := none,
    Sticker := none, Video := none, VideoNote := none }

/-- The eight media fields in the order of the spec (photo, voice, audio,
animation, document, sticker, video, video-note), each with its endpoint. -/
def mediaKinds (pkg : Package) (m : Message) : List (Option Body × String) :=
  [(m.Photo, pkg.OnPhoto), (m.Voice, pkg.OnVoice), (m.Audio, pkg.OnAudio),
   (m.Animation, pkg.OnAnimation), (m.Document, pkg.OnDocument), (m.Sticker, pkg.OnSticker),
   (m.Video, pkg.OnVideo), (m.VideoNote, pkg.OnVideoNote)]

/-- The endpoint of the first populated media kind in the order of the spec. -/
def firstMedia (pkg : Package) (m : Message) : Option String :=
  ((mediaKinds pkg m).find? (fun k => k.1.isSome)).map Prod.snd

/-- None of the eight media fields is populated. -/
def NoMedia (m : Message) : Prop :=
  m.Photo = none ∧ m.Voice = none ∧ m.Audio = none ∧ m.Animation = none ∧
    m.Document = none ∧ m.Sticker = none ∧ m.Video = none ∧ m.VideoNote = none

/-- None of the markers contact, location, venue, game, dice, invoice,
payment, refunded payment, topic created / reopened / closed / edited, general
topic hidden / unhidden, write access allowed is populated. -/
def NoEarlyMarker (m : Message) : Prop :=
  m.Contact = none ∧ m.Location = none ∧ m.Venue = none ∧ m.Game = none ∧ m.Dice = none ∧
    m.Invoice = none ∧ m.Payment = none ∧ m.RefundedPayment = none ∧
    m.TopicCreated = none ∧ m.TopicReopened = none ∧ m.TopicClosed = none ∧
    m.TopicEdited = none ∧ m.GeneralTopicHidden = none ∧ m.GeneralTopicUnhidden = none ∧
    m.WriteAccessAllowed = none

/-- The bot itself was added, in the words of the spec: the single joined user
or some user of the joined-users list has the identity `me`. -/
def BotAdded (me : User) (m : Message) : Prop :=
  (∃ joined, m.UserJoined = some joined ∧ joined.ID = me.ID) ∨
    ∃ list, m.UsersJoined = some list ∧ ∃ x ∈ list, x.ID = me.ID

/-- The sanitization in the words of the spec, on the characters of a text:
every leading BEL character (U+0007) is removed, and nothing else. -/
def stripBel : List Char → List Char
  | [] => []
  | c :: cs => if c = '\x07' then stripBel cs else c :: cs

/-- The sanitization in the words of the spec. -/
def strip (t : String) : String :=
  String.mk (stripBel t.data)

/-- The message `m'` has the value of `m` in every field other than `Text`,
`Command`, `Payload` and `MigrateFrom`. -/
def Message.Framed (m m' : Message) : Prop :=
  m' = { m with
    Text := m'.Text, Command := m'.Command, Payload := m'.Payload,
    MigrateFrom := m'.MigrateFrom }

/-- The callback `c'` has the value of `c` in every field other than `Data`
and `Unique`. -/
def Callback.Framed (c c' : Callback) : Prop :=
  c' = { c with Data := c'.Data, Unique := c'.Unique }

/-- The Update `u'` has the value of `u` in every field other than
`Message.Text`, `Message.Command`, `Message.Payload`, `Message.MigrateFrom`,
`Callback.Data` and `Callback.Unique`. -/
def Update.Framed (u u' : Update) : Prop :=
  u' = { u with Message := u'.Message, Callback := u'.Callback } ∧
    (match u.Message, u'.Message with
     | some m, some m' => Message.Framed m m'
     | none, none => True
     | _, _ => False) ∧
    (match u.Callback, u'.Callback with
     | some c, some c' => Callback.Framed c c'
     | none, none => True
     | _, _ => False)

/-- The message holds something on which the `Message` block returns: a pinned
notice, non-empty sanitized text, a media field, one of the markers contact
through write access allowed, a group-created or supergroup-created marker, a
joined user or a joined-users list. -/
def Decides (m : Message) : Prop :=
  m.PinnedMessage ≠ none ∨ sanitized m ≠ "" ∨ ¬ NoMedia m ∨ ¬ NoEarlyMarker m ∨
    m.GroupCreated = true ∨ m.SuperGroupCreated = true ∨
    m.UserJoined ≠ none ∨ m.UsersJoined ≠ none

/-! Lemmas on the pieces of `SelectHandlerForUpdate` -/

theorem index_of_getElem? {xs : List String} {i : Nat} {x : String}
    (h : xs[i]? = some x) : index xs i = .ok x := by
  simp [index, h]

theorem otherBot_of_acceptable (pkg : Package) (b : Bot H) (botName : String)
    (h : Acceptable pkg b botName) : b.otherBot pkg botName = .ok false := by
  unfold Bot.otherBot
  rcases h with h | ⟨me, hme, hf⟩
  · simp [h]
  · by_cases hb : botName = ""
    · simp [hb]
    · simp [hb, hme, hf]

/-- A message without pinned notice and with non-empty sanitized text is routed
by `selectText` on the sanitized message. -/
theorem select_text (pkg : Package) (b : Bot H) (u : Update) (m : Message)
    (hm : u.Message = some m) (hpin : m.PinnedMessage = none)
    (htext : sanitized m ≠ "") :
    b.SelectHandlerForUpdate pkg u =
      match b.selectText pkg { m with Text := sanitized m } with
      | .error e => .error e
      | .ok (h, m1) => .ok (h, u.withMessage m1) := by
  unfold Bot.SelectHandlerForUpdate Bot.selectMessage
  have hp : m.PinnedMessage.isSome = false := by simp [hpin]
  have h1 : TrimLeft m.Text "\x07" ≠ "" := htext
  simp only [hm, hp, Bool.false_eq_true, if_false, ne_eq, h1, not_false_eq_true, if_true,
    sanitized, Update.withMessage]
  generalize b.selectText pkg _ = r
  rcases r with e | ⟨h, m1⟩ <;> rfl

/-- The command block of `selectText` once the text has parsed and the
qualifier is acceptable. -/
theorem selectText_command (pkg : Package) (b : Bot H) (m : Message)
    (command botName payload : String)
    (hparse : ParsesAs pkg m.Text command botName payload)
    (hacc : Acceptable pkg b botName) :
    b.selectText pkg m =
      .ok (match b.getHandler command with
           | some h => some h
           | none =>
             match b.getHandler pkg.OnCommand with
             | some h => some h
             | none => b.textHandler pkg m,
           { m with Command := command, Payload := payload }) := by
  obtain ⟨_, m0, rest, hrx, h1, h3, h5⟩ := hparse
  unfold Bot.selectText
  simp only [hrx, index_of_getElem? h1, index_of_getElem? h3, index_of_getElem? h5,
    otherBot_of_acceptable pkg b botName hacc]
  cases b.getHandler command with
  | some h => rfl
  | none =>
    cases b.getHandler pkg.OnCommand with
    | some h => rfl
    | none => simp [Bot.textHandler]

/-! Claims -/

/-- C1. A message without pinned notice whose sanitized text parses as a
command with a non-empty qualifier that does not equal, up to case, the bot's
own username selects no handler, whatever the handler table and whatever the
other fields of the Update hold; the only change to the Update is the
sanitized text. -/
theorem other_bot_command_selects_nothing (pkg : Package) (b : Bot H) (u : Update)
    (m : Message) (me : User) (command botName payload : String)
    (hm : u.Message = some m) (hpin : m.PinnedMessage = none)
    (hparse : ParsesAs pkg (sanitized m) command botName payload)
    (hq : botName ≠ "") (hme : b.Me = some me)
    (hfold : pkg.EqualFold me.Username botName = false) :
    b.SelectHandlerForUpdate pkg u =
      .ok (none, u.withMessage { m with Text := sanitized m }) := by
  rw [select_text pkg b u m hm hpin hparse.1]
  obtain ⟨_, m0, rest, hrx, h1, h3, _⟩ := hparse
  unfold Bot.selectText
  simp [hrx, index_of_getElem? h1, index_of_getElem? h3, Bot.otherBot, hq, hme, hfold]

/-- The example of C1: `/start@OtherBot hello` sent to the bot `MyBot`, with
handlers under the command, the any-command, the text and the any-text keys and
a populated `Callback` with its handler. -/
theorem other_bot_command_selects_nothing_witness :
    (myBot [("/start", 1), ("\x07command", 2), ("/start@OtherBot hello", 3), ("\x07text", 4),
        ("\x07callback", 5)]).SelectHandlerForUpdate pkg0
      { Message := some { Text := "/start@OtherBot hello" }, Callback := some {} } =
      .ok (none, { Message := some { Text := "/start@OtherBot hello" }, Callback := some {} }) :=
  other_bot_command_selects_nothing pkg0 _
    { Message := some { Text := "/start@OtherBot hello" }, Callback := some {} }
    { Text := "/start@OtherBot hello" } { ID := 1, Username := "MyBot" }
    "/start" "OtherBot" "hello" rfl rfl
    ⟨by decide, _, _, rfl, rfl, rfl, rfl⟩ (by decide) rfl rfl

/-- C2 as stated fails at its example: the command token of `/start hello` is
`/start`, slash included (comment at line 65 of `update.go`), so a handler
registered under `start` is not found, no handler is selected, and `Command`
is `/start`. -/
theorem start_key_without_slash_not_selected :
    (myBot [("start", 7)]).SelectHandlerForUpdate pkg0
        { Message := some { Text := "/start hello" } } =
      .ok (none,
        { Message := some { Text := "/start hello", Command := "/start", Payload := "hello" } }) :=
  rfl

/-- C2, amended. A message without pinned notice whose sanitized text parses as
a command with an absent or matching qualifier, when a handler is registered
under the parsed command name, selects exactly that handler and leaves
`Command` and `Payload` equal to the parsed command and payload. With the
command grammar of the spec and the slash inside the command token,
`/start hello` and a handler under `/start` give that handler,
`Command = "/start"` and `Payload = "hello"`. -/
theorem registered_command_selected (pkg : Package) (b : Bot H) (u : Update)
    (m : Message) (command botName payload : String) (h : H)
    (hm : u.Message = some m) (hpin : m.PinnedMessage = none)
    (hparse : ParsesAs pkg (sanitized m) command botName payload)
    (hacc : Acceptable pkg b botName) (hreg : b.getHandler command = some h) :
    b.SelectHandlerForUpdate pkg u =
        .ok (some h, u.withMessage
          { m with Text := sanitized m, Command := command, Payload := payload }) ∧
      (myBot [("/start", 7)]).SelectHandlerForUpdate pkg0
          { Message := some { Text := "/start hello" } } =
        .ok (some 7,
          { Message := some { Text := "/start hello", Command := "/start", Payload := "hello" } }) := by
  refine ⟨?_, rfl⟩
  rw [select_text pkg b u m hm hpin hparse.1,
    selectText_command pkg b { m with Text := sanitized m } command botName payload hparse hacc]
  simp [hreg]

/-- C2 amended at a command addressed to this bot in another case, after a
BEL character: `\a/start@mybot hello` for the bot `MyBot`. -/
theorem registered_command_selected_witness :
    (myBot [("/start", 7), ("\x07command", 2)]).SelectHandlerForUpdate pkg0
          { Message := some { Text := "\x07/start@mybot hello", Photo := some ⟨0⟩ } } =
        .ok (some 7,
          { Message := some { Text := "/start@mybot hello", Command := "/start", Payload := "hello",
                              Photo := some ⟨0⟩ } }) ∧
      (myBot [("/start", 7)]).SelectHandlerForUpdate pkg0
          { Message := some { Text := "/start hello" } } =
        .ok (some 7,
          { Message := some { Text := "/start hello", Command := "/start", Payload := "hello" } }) :=
  registered_command_selected pkg0 (myBot [("/start", 7), ("\x07command", 2)])
    { Message := some { Text := "\x07/start@mybot hello", Photo := some ⟨0⟩ } }
    { Text := "\x07/start@mybot hello", Photo := some ⟨0⟩ } "/start" "mybot" "hello" 7 rfl rfl
    ⟨by decide, _, _, rfl, rfl, rfl, rfl⟩ (Or.inr ⟨_, rfl, rfl⟩) rfl

/-- C3. A message without pinned notice whose sanitized text parses as a
command with an absent or matching qualifier, when no handler is registered
under the parsed command name and an `OnCommand` handler is registered,
selects the `OnCommand` handler, whatever is registered under the text itself
or under `OnText`. -/
theorem unknown_command_selects_any_command (pkg : Package) (b : Bot H) (u : Update)
    (m : Message) (command botName payload : String) (h : H)
    (hm : u.Message = some m) (hpin : m.PinnedMessage = none)
    (hparse : ParsesAs pkg (sanitized m) command botName payload)
    (hacc : Acceptable pkg b botName) (hnone : b.getHandler command = none)
    (hany : b.getHandler pkg.OnCommand = some h) :
    b.SelectHandlerForUpdate pkg u =
      .ok (some h, u.withMessage
        { m with Text := sanitized m, Command := command, Payload := payload }) := by
  rw [select_text pkg b u m hm hpin hparse.1,
    selectText_command pkg b { m with Text := sanitized m } command botName payload hparse hacc]
  simp [hnone, hany]

/-- C3 at `/unknown hi` with an any-command handler, and also a handler under
the text itself and an any-text handler. -/
theorem unknown_command_selects_any_command_witness :
    (myBot [("\x07command", 2), ("/unknown hi", 3), ("\x07text", 4)]).SelectHandlerForUpdate
        pkg0 { Message := some { Text := "/unknown hi" } } =
      .ok (some 2,
        { Message := some { Text := "/unknown hi", Command := "/unknown", Payload := "hi" } }) :=
  unknown_command_selects_any_command pkg0 _ { Message := some { Text := "/unknown hi" } }
    { Text := "/unknown hi" } "/unknown" "" "hi" 2 rfl rfl
    ⟨by decide, _, _, rfl, rfl, rfl, rfl⟩ (Or.inl rfl) rfl rfl

/-- C4 as stated fails: `/unknown` parses as a command without qualifier, no
handler is registered under `/unknown` or under `OnCommand`, and yet the call
selects the handler registered under `OnText` instead of no handler. -/
theorem unknown_command_reaches_text_handler :
    ParsesAs pkg0 (sanitized { Text := "/unknown" }) "/unknown" "" "" ∧
      (myBot [("\x07text", 4)]).getHandler "/unknown" = none ∧
      (myBot [("\x07text", 4)]).getHandler pkg0.OnCommand = none ∧
      (myBot [("\x07text", 4)]).SelectHandlerForUpdate pkg0
          { Message := some { Text := "/unknown" } } =
        .ok (some 4, { Message := some { Text := "/unknown", Command := "/unknown" } }) :=
  ⟨⟨by decide, _, _, rfl, rfl, rfl, rfl⟩, rfl, rfl, rfl⟩

/-- C4, amended. A message without pinned notice whose sanitized text parses
as a command with an absent or matching qualifier selects the handler under
the exact command name if there is one, otherwise the `OnCommand` handler if
there is one, otherwise the handler under the sanitized text if there is one,
otherwise the `OnText` handler (nil if none). -/
theorem command_precedence (pkg : Package) (b : Bot H) (u : Update)
    (m : Message) (command botName payload : String)
    (hm : u.Message = some m) (hpin : m.PinnedMessage = none)
    (hparse : ParsesAs pkg (sanitized m) command botName payload)
    (hacc : Acceptable pkg b botName) :
    b.SelectHandlerForUpdate pkg u =
      .ok (match b.getHandler command with
           | some h => some h
           | none =>
             match b.getHandler pkg.OnCommand with
             | some h => some h
             | none =>
               match b.getHandler (sanitized m) with
               | some h => some h
               | none => b.getHandler pkg.OnText,
        u.withMessage { m with Text := sanitized m, Command := command, Payload := payload }) := by
  rw [select_text pkg b u m hm hpin hparse.1,
    selectText_command pkg b { m with Text := sanitized m } command botName payload hparse hacc]
  rfl

/-- C4 amended at `/unknown hi` with handlers under the text and under
`OnText` only: the handler under the text is selected. -/
theorem command_precedence_witness :
    (myBot [("/unknown hi", 3), ("\x07text", 4)]).SelectHandlerForUpdate pkg0
        { Message := some { Text := "/unknown hi" } } =
      .ok (some 3,
        { Message := some { Text := "/unknown hi", Command := "/unknown", Payload := "hi" } }) :=
  command_precedence pkg0 (myBot [("/unknown hi", 3), ("\x07text", 4)])
    { Message := some { Text := "/unknown hi" } }
    { Text := "/unknown hi" } "/unknown" "" "hi" rfl rfl
    ⟨by decide, _, _, rfl, rfl, rfl, rfl⟩ (Or.inl rfl)

/-- C5. A message without pinned notice whose sanitized text is not empty and
does not match the command grammar selects the handler registered under the
sanitized text if there is one and otherwise the `OnText` handler (possibly
nil); the message keeps its `Command` and `Payload`, only `Text` is replaced
by the sanitized text. -/
theorem plain_text_routing (pkg : Package) (b : Bot H) (u : Update) (m : Message)
    (hm : u.Message = some m) (hpin : m.PinnedMessage = none)
    (htext : sanitized m ≠ "")
    (hno : pkg.cmdRx.FindAllStringSubmatch (sanitized m) = []) :
    b.SelectHandlerForUpdate pkg u =
      .ok (match b.getHandler (sanitized m) with
           | some h => some h
           | none => b.getHandler pkg.OnText,
        u.withMessage { m with Text := sanitized m }) := by
  rw [select_text pkg b u m hm hpin htext]
  unfold Bot.selectText
  simp only [hno]
  rfl

/-- C5 at the text `hello, world` with derived fields already set: the
`OnText` handler is selected and `Command`, `Payload` stay. -/
theorem plain_text_routing_witness :
    (myBot [("\x07text", 4), ("\x07command", 2)]).SelectHandlerForUpdate pkg0
        { Message := some { Text := "hello, world", Command := "old", Payload := "p" } } =
      .ok (some 4,
        { Message := some { Text := "hello, world", Command := "old", Payload := "p" } }) :=
  plain_text_routing pkg0 (myBot [("\x07text", 4), ("\x07command", 2)])
    { Message := some { Text := "hello, world", Command := "old", Payload := "p" } }
    { Text := "hello, world", Command := "old", Payload := "p" } rfl rfl (by decide) rfl

/-- The handler `selectText` picks depends on the text of the message only. -/
theorem selectText_handler_congr (pkg : Package) (b : Bot H) (m1 m2 : Message)
    (h : m1.Text = m2.Text) :
    (b.selectText pkg m1).map Prod.fst = (b.selectText pkg m2).map Prod.fst := by
  unfold Bot.selectText Bot.textHandler
  rw [h]
  cases pkg.cmdRx.FindAllStringSubmatch m2.Text with
  | nil => rfl
  | cons m0 rest =>
    dsimp only
    cases index m0 1 with
    | error e => rfl
    | ok command =>
      dsimp only
      cases index m0 3 with
      | error e => rfl
      | ok botName =>
        dsimp only
        cases b.otherBot pkg botName with
        | error e => rfl
        | ok other =>
          cases other with
          | true => rfl
          | false =>
            dsimp only
            cases index m0 5 with
            | error e => rfl
            | ok payload =>
              dsimp only
              cases b.getHandler command with
              | some hc => rfl
              | none =>
                dsimp only
                cases b.getHandler pkg.OnCommand with
                | some hc => rfl
                | none => rfl

/-- C6. For a message without pinned notice and with non-empty sanitized text
the selected handler (or the failure) is the one selected for the same Update
with the eight media fields of the message cleared: the media fields play no
part in the routing of a message that has text. -/
theorem text_routing_ignores_media (pkg : Package) (b : Bot H) (u : Update) (m : Message)
    (hm : u.Message = some m) (hpin : m.PinnedMessage = none)
    (htext : sanitized m ≠ "") :
    (b.SelectHandlerForUpdate pkg u).map Prod.fst =
      (b.SelectHandlerForUpdate pkg (u.withMessage (clearMedia m))).map Prod.fst := by
  rw [select_text pkg b u m hm hpin htext,
    select_text pkg b (u.withMessage (clearMedia m)) (clearMedia m) rfl hpin htext]
  have key := selectText_handler_congr pkg b { m with Text := sanitized m }
    { clearMedia m with Text := sanitized (clearMedia m) } rfl
  revert key
  generalize b.selectText pkg { m with Text := sanitized m } = r1
  generalize b.selectText pkg { clearMedia m with Text := sanitized (clearMedia m) } = r2
  intro key
  rcases r1 with e1 | ⟨h1, m1⟩ <;> rcases r2 with e2 | ⟨h2, m2⟩ <;>
    simp_all [Except.map]

/-- C6 at a message with a photo and the text `hello, world`, photo and
any-media handlers registered: the `OnText` handler is selected, as without
the photo. -/
theorem text_routing_ignores_media_witness :
    ((myBot [("\x07photo", 1), ("\x07media", 2), ("\x07text", 4)]).SelectHandlerForUpdate pkg0
        { Message := some { Text := "hello, world", Photo := some ⟨0⟩ } }).map Prod.fst =
      ((myBot [("\x07photo", 1), ("\x07media", 2), ("\x07text", 4)]).SelectHandlerForUpdate pkg0
        (Update.withMessage { Message := some { Text := "hello, world", Photo := some ⟨0⟩ } }
          (clearMedia { Text := "hello, world", Photo := some ⟨0⟩ }))).map Prod.fst ∧
    ((myBot [("\x07photo", 1), ("\x07media", 2), ("\x07text", 4)]).SelectHandlerForUpdate pkg0
        { Message := some { Text := "hello, world", Photo := some ⟨0⟩ } }).map Prod.fst =
      .ok (some 4) :=
  ⟨text_routing_ignores_media pkg0 (myBot [("\x07photo", 1), ("\x07media", 2), ("\x07text", 4)])
    { Message := some { Text := "hello, world", Photo := some ⟨0⟩ } }
    { Text := "hello, world", Photo := some ⟨0⟩ } rfl rfl (by decide), rfl⟩

/-- C7. A message that carries a pinned-message notice selects exactly the
`OnPinned` handler (nil if none), whatever else the message and the Update
hold and whatever else is registered, and the Update is left as it was: the
text is not sanitized, `Command` and `Payload` are not written. -/
theorem pinned_first (pkg : Package) (b : Bot H) (u : Update) (m : Message) (p : Body)
    (hm : u.Message = some m) (hpin : m.PinnedMessage = some p) :
    b.SelectHandlerForUpdate pkg u = .ok (b.getHandler pkg.OnPinned, u) := by
  unfold Bot.SelectHandlerForUpdate Bot.selectMessage
  simp only [hm, hpin, Option.isSome_some, if_true]
  cases u
  simp_all

/-- C7 at a pinned notice whose message also has a command text behind BEL
characters, a photo and a contact. -/
theorem pinned_first_witness :
    (myBot [("\x07pinned", 9), ("/start", 1), ("\x07photo", 2), ("\x07contact", 3),
        ("\x07callback", 5)]).SelectHandlerForUpdate pkg0
      { Message := some { PinnedMessage := some ⟨1⟩, Text := "\x07\x07/start hello",
                          Photo := some ⟨0⟩, Contact := some ⟨2⟩ },
        Callback := some {} } =
      .ok (some 9,
        { Message := some { PinnedMessage := some ⟨1⟩, Text := "\x07\x07/start hello",
                            Photo := some ⟨0⟩, Contact := some ⟨2⟩ },
          Callback := some {} }) :=
  pinned_first pkg0 _ _ { PinnedMessage := some ⟨1⟩, Text := "\x07\x07/start hello",
                          Photo := some ⟨0⟩, Contact := some ⟨2⟩ } ⟨1⟩ rfl rfl

/-- The result of `getMediaHandler` on a message with a populated media
field, in the terms of `firstMedia`. -/
theorem getMediaHandler_of_media (pkg : Package) (b : Bot H) (m : Message)
    (hmedia : m.Photo.isSome ∨ m.Voice.isSome ∨ m.Audio.isSome ∨ m.Animation.isSome ∨
      m.Document.isSome ∨ m.Sticker.isSome ∨ m.Video.isSome ∨ m.VideoNote.isSome) :
    ∃ key, firstMedia pkg m = some key ∧
      b.getMediaHandler pkg m =
        (match b.getHandler key with
         | some h => some h
         | none => b.getHandler pkg.OnMedia, true) := by
  unfold firstMedia mediaKinds Bot.getMediaHandler
  by_cases h1 : m.Photo.isSome = true
  · refine ⟨pkg.OnPhoto, by simp [List.find?, h1], ?_⟩
    simp only [h1, if_true]; cases b.getHandler pkg.OnPhoto <;> rfl
  by_cases h2 : m.Voice.isSome = true
  · refine ⟨pkg.OnVoice, by simp [List.find?, h1, h2], ?_⟩
    simp only [h1, h2, if_true, if_false]; cases b.getHandler pkg.OnVoice <;> rfl
  by_cases h3 : m.Audio.isSome = true
  · refine ⟨pkg.OnAudio, by simp [List.find?, h1, h2, h3], ?_⟩
    simp only [h1, h2, h3, if_true, if_false]; cases b.getHandler pkg.OnAudio <;> rfl
  by_cases h4 : m.Animation.isSome = true
  · refine ⟨pkg.OnAnimation, by simp [List.find?, h1, h2, h3, h4], ?_⟩
    simp only [h1, h2, h3, h4, if_true, if_false]; cases b.getHandler pkg.OnAnimation <;> rfl
  by_cases h5 : m.Document.isSome = true
  · refine ⟨pkg.OnDocument, by simp [List.find?, h1, h2, h3, h4, h5], ?_⟩
    simp only [h1, h2, h3, h4, h5, if_true, if_false]
    cases b.getHandler pkg.OnDocument <;> rfl
  by_cases h6 : m.Sticker.isSome = true
  · refine ⟨pkg.OnSticker, by simp [List.find?, h1, h2, h3, h4, h5, h6], ?_⟩
    simp only [h1, h2, h3, h4, h5, h6, if_true, if_false]
    cases b.getHandler pkg.OnSticker <;> rfl
  by_cases h7 : m.Video.isSome = true
  · refine ⟨pkg.OnVideo, by simp [List.find?, h1, h2, h3, h4, h5, h6, h7], ?_⟩
    simp only [h1, h2, h3, h4, h5, h6, h7, if_true, if_false]
    cases b.getHandler pkg.OnVideo <;> rfl
  by_cases h8 : m.VideoNote.isSome = true
  · refine ⟨pkg.OnVideoNote, by simp [List.find?, h1, h2, h3, h4, h5, h6, h7, h8], ?_⟩
    simp only [h1, h2, h3, h4, h5, h6, h7, h8, if_true, if_false]
    cases b.getHandler pkg.OnVideoNote <;> rfl
  · exfalso
    rcases hmedia with h | h | h | h | h | h | h | h <;> contradiction

/-- C8. A message without pinned notice, with empty sanitized text and at
least one populated media field selects the handler of the first populated
kind in the order photo, voice, audio, animation, document, sticker, video,
video-note if one is registered, otherwise the `OnMedia` handler, otherwise
nil; the call returns there whatever markers the message and whatever other
fields the Update hold. -/
theorem media_routing (pkg : Package) (b : Bot H) (u : Update) (m : Message)
    (hm : u.Message = some m) (hpin : m.PinnedMessage = none)
    (htext : sanitized m = "")
    (hmedia : m.Photo.isSome ∨ m.Voice.isSome ∨ m.Audio.isSome ∨ m.Animation.isSome ∨
      m.Document.isSome ∨ m.Sticker.isSome ∨ m.Video.isSome ∨ m.VideoNote.isSome) :
    ∃ key, firstMedia pkg m = some key ∧
      b.SelectHandlerForUpdate pkg u =
        .ok (match b.getHandler key with
             | some h => some h
             | none => b.getHandler pkg.OnMedia,
          u.withMessage { m with Text := sanitized m }) := by
  obtain ⟨key, hkey, hget⟩ :=
    getMediaHandler_of_media pkg b { m with Text := sanitized m } hmedia
  refine ⟨key, hkey, ?_⟩
  unfold Bot.SelectHandlerForUpdate Bot.selectMessage
  have hp : m.PinnedMessage.isSome = false := by simp [hpin]
  have h1 : TrimLeft m.Text "\x07" = "" := htext
  simp only [sanitized, h1] at hget
  simp only [hm, hp, Bool.false_eq_true, if_false, ne_eq, h1, not_true_eq_false, hget,
    Update.withMessage, sanitized]

/-- C8 at a voice message that is also a video and carries a contact, in an
Update with a populated `Callback`, when only contact and callback handlers
are registered: nil is selected. -/
theorem media_routing_witness :
    (myBot [("\x07contact", 3), ("\x07callback", 5)]).SelectHandlerForUpdate pkg0
        { Message := some { Text := "\x07", Voice := some ⟨0⟩, Video := some ⟨1⟩,
                            Contact := some ⟨2⟩ },
          Callback := some {} } =
      .ok (none,
        { Message := some { Text := "", Voice := some ⟨0⟩, Video := some ⟨1⟩,
                            Contact := some ⟨2⟩ },
          Callback := some {} }) := by
  obtain ⟨key, hkey, h⟩ :=
    media_routing pkg0 (myBot [("\x07contact", 3), ("\x07callback", 5)])
      { Message := some { Text := "\x07", Voice := some ⟨0⟩, Video := some ⟨1⟩,
                          Contact := some ⟨2⟩ },
        Callback := some {} }
      { Text := "\x07", Voice := some ⟨0⟩, Video := some ⟨1⟩, Contact := some ⟨2⟩ }
      rfl rfl (by decide) (Or.inr (Or.inl rfl))
  have hk : "\x07voice" = key := Option.some.inj hkey
  subst hk
  exact h

/-- The structured branch of `selectCallback`: sentinel present, data parsed,
handler registered under sentinel plus unique identifier. -/
theorem selectCallback_structured (pkg : Package) (b : Bot H) (u : Update) (cb : Callback)
    (unique payload : String) (h : H)
    (hsent : cb.Data.data.head? = some '\x0c')
    (hparse : ParsesCallback pkg cb.Data unique payload)
    (hreg : b.getHandler ("\x0c" ++ unique) = some h) :
    b.selectCallback pkg u cb =
      .ok (some h, { u with Callback := some { cb with Unique := unique, Data := payload } }) := by
  obtain ⟨m0, rest, hrx, h1, h3⟩ := hparse
  unfold Bot.selectCallback
  have hs : hasSentinel cb.Data = true := by simp [hasSentinel, hsent]
  simp only [hs, if_true, hrx, index_of_getElem? h1, index_of_getElem? h3, hreg]

/-- C9. For an Update whose only populated top-level field is `Callback`, when
the data begins with the sentinel (U+000C, Go's `'\f'`), parses under the
callback grammar with a unique identifier and a payload, and a handler is
registered under the sentinel followed by the unique identifier, the call
selects that handler and leaves `Callback.Unique` equal to the parsed
identifier and `Callback.Data` equal to the parsed payload. -/
theorem structured_callback_routing (pkg : Package) (b : Bot H) (id : Int) (cb : Callback)
    (unique payload : String) (h : H)
    (hsent : cb.Data.data.head? = some '\x0c')
    (hparse : ParsesCallback pkg cb.Data unique payload)
    (hreg : b.getHandler ("\x0c" ++ unique) = some h) :
    b.SelectHandlerForUpdate pkg { ID := id, Callback := some cb } =
      .ok (some h,
        { ID := id, Callback := some { cb with Unique := unique, Data := payload } }) := by
  unfold Bot.SelectHandlerForUpdate Bot.selectOther
  simp only [selectCallback_structured pkg b _ cb unique payload h hsent hparse hreg]

/-- C9 at the data U+000C `shop_1|x|y` with a stale `Unique`: the payload is
everything after the first separator. -/
theorem structured_callback_routing_witness :
    (myBot [("\x0cshop_1", 8), ("\x07callback", 5)]).SelectHandlerForUpdate pkg0
        { ID := 3, Callback := some { Data := "\x0cshop_1|x|y", Unique := "old" } } =
      .ok (some 8, { ID := 3, Callback := some { Data := "x|y", Unique := "shop_1" } }) :=
  structured_callback_routing pkg0 (myBot [("\x0cshop_1", 8), ("\x07callback", 5)]) 3
    { Data := "\x0cshop_1|x|y", Unique := "old" } "shop_1" "x|y" 8 rfl ⟨_, _, rfl, rfl, rfl⟩ rfl

/-- C10 as stated fails: the data U+000F `abc|42` does not begin with the
sentinel of the source (`'\f'` is U+000C), so the handler registered under
U+000F `abc` is not selected and `Data`, `Unique` stay as received; this holds
with a callback grammar whose sentinel is U+000F and with one whose sentinel
is U+000C. -/
theorem si_callback_not_structured :
    (myBot [("\x0fabc", 7)]).SelectHandlerForUpdate
          (specPackage specCmdRx (specCbackRx '\x0f'))
          { Callback := some { Data := "\x0fabc|42" } } =
        .ok (none, { Callback := some { Data := "\x0fabc|42", Unique := "" } }) ∧
      (myBot [("\x0fabc", 7)]).SelectHandlerForUpdate pkg0
          { Callback := some { Data := "\x0fabc|42" } } =
        .ok (none, { Callback := some { Data := "\x0fabc|42", Unique := "" } }) :=
  ⟨rfl, rfl⟩

/-- C10, amended. With the callback grammar of the spec over the sentinel of
the source, an Update whose only populated field is a `Callback` with data
U+000C followed by `abc|42`, and a handler table with a handler under U+000C
followed by `abc`, select that handler, and afterwards `Callback.Data` is `42`
and `Callback.Unique` is `abc`. -/
theorem form_feed_callback_example (pkg : Package) (b : Bot H) (id : Int) (old : String)
    (h : H) (hrx : pkg.cbackRx = specCbackRx '\x0c')
    (hreg : b.getHandler "\x0cabc" = some h) :
    b.SelectHandlerForUpdate pkg
        { ID := id, Callback := some { Data := "\x0cabc|42", Unique := old } } =
      .ok (some h, { ID := id, Callback := some { Data := "42", Unique := "abc" } }) := by
  have hparse : ParsesCallback pkg "\x0cabc|42" "abc" "42" :=
    ⟨_, _, by rw [hrx]; rfl, rfl, rfl⟩
  unfold Bot.SelectHandlerForUpdate Bot.selectOther
  simp only [selectCallback_structured pkg b _ { Data := "\x0cabc|42", Unique := old }
    "abc" "42" h rfl hparse hreg]

/-- C10 amended at a table that also holds an any-callback handler. -/
theorem form_feed_callback_example_witness :
    (myBot [("\x0cabc", 7), ("\x07callback", 5)]).SelectHandlerForUpdate pkg0
        { ID := 0, Callback := some { Data := "\x0cabc|42", Unique := "" } } =
      .ok (some 7, { ID := 0, Callback := some { Data := "42", Unique := "abc" } }) :=
  form_feed_callback_example pkg0 (myBot [("\x0cabc", 7), ("\x07callback", 5)]) 0 "" 7 rfl rfl

/-- C11. For an Update whose only populated top-level field is `Callback`,
when the data is empty or does not begin with the sentinel, or does not match
the callback grammar, or parses but no handler is registered under the
sentinel followed by the parsed identifier, the call selects the `OnCallback`
handler (nil if none) and leaves the Update, `Callback.Data` and
`Callback.Unique` included, exactly as received. -/
theorem callback_fallback (pkg : Package) (b : Bot H) (id : Int) (cb : Callback)
    (hcase : cb.Data.data.head? ≠ some '\x0c' ∨
      pkg.cbackRx.FindAllStringSubmatch cb.Data = [] ∨
      ∃ unique payload, ParsesCallback pkg cb.Data unique payload ∧
        b.getHandler ("\x0c" ++ unique) = none) :
    b.SelectHandlerForUpdate pkg { ID := id, Callback := some cb } =
      .ok (b.getHandler pkg.OnCallback, { ID := id, Callback := some cb }) := by
  unfold Bot.SelectHandlerForUpdate Bot.selectOther Bot.selectCallback
  by_cases hs : hasSentinel cb.Data = true
  · simp only [hs, if_true]
    rcases hcase with h | h | ⟨unique, payload, ⟨m0, rest, hrx, h1, h3⟩, hreg⟩
    · exact absurd (by simpa [hasSentinel] using hs) h
    · simp only [h]
    · simp only [hrx, index_of_getElem? h1, index_of_getElem? h3, hreg]
  · simp only [hs, Bool.false_eq_true, if_false]

/-- C11 at the example of the spec with the sentinel of the source: the data
U+000C `abc|42` when only an any-callback handler is registered. -/
theorem callback_fallback_witness :
    (myBot [("\x07callback", 5), ("\x0cxyz", 6)]).SelectHandlerForUpdate pkg0
        { ID := 2, Callback := some { Data := "\x0cabc|42", Unique := "u" } } =
      .ok (some 5, { ID := 2, Callback := some { Data := "\x0cabc|42", Unique := "u" } }) :=
  callback_fallback pkg0 (myBot [("\x07callback", 5), ("\x0cxyz", 6)]) 2
    { Data := "\x0cabc|42", Unique := "u" }
    (Or.inr (Or.inr ⟨"abc", "42", ⟨_, _, rfl, rfl, rfl⟩, rfl⟩))

/-- C12 on the code: for every package and every handler table, a message
that carries only one of the markers user left, user shared, chat shared, new
group title, new group photo, group photo deleted, channel created, migration,
video chat started / ended / participants / scheduled, web-app data, proximity
alert or auto-delete timer selects no handler: the lookups of lines 151-209
are made and their results dropped. -/
theorem late_marker_lookups_dropped (pkg : Package) (b : Bot H) (x : Body) :
    b.SelectHandlerForUpdate pkg { Message := some { UserLeft := some x } } =
        .ok (none, { Message := some { UserLeft := some x } }) ∧
      b.SelectHandlerForUpdate pkg { Message := some { UserShared := some x } } =
        .ok (none, { Message := some { UserShared := some x } }) ∧
      b.SelectHandlerForUpdate pkg { Message := some { ChatShared := some x } } =
        .ok (none, { Message := some { ChatShared := some x } }) ∧
      b.SelectHandlerForUpdate pkg { Message := some { NewGroupTitle := "title" } } =
        .ok (none, { Message := some { NewGroupTitle := "title" } }) ∧
      b.SelectHandlerForUpdate pkg { Message := some { NewGroupPhoto := some x } } =
        .ok (none, { Message := some { NewGroupPhoto := some x } }) ∧
      b.SelectHandlerForUpdate pkg { Message := some { GroupPhotoDeleted := true } } =
        .ok (none, { Message := some { GroupPhotoDeleted := true } }) ∧
      b.SelectHandlerForUpdate pkg { Message := some { ChannelCreated := true } } =
        .ok (none, { Message := some { ChannelCreated := true } }) ∧
      b.SelectHandlerForUpdate pkg
          { Message := some { MigrateTo := 5, Chat := some ⟨4⟩ } } =
        .ok (none, { Message := some { MigrateTo := 5, Chat := some ⟨4⟩, MigrateFrom := 4 } }) ∧
      b.SelectHandlerForUpdate pkg { Message := some { VideoChatStarted := some x } } =
        .ok (none, { Message := some { VideoChatStarted := some x } }) ∧
      b.SelectHandlerForUpdate pkg { Message := some { VideoChatEnded := some x } } =
        .ok (none, { Message := some { VideoChatEnded := some x } }) ∧
      b.SelectHandlerForUpdate pkg { Message := some { VideoChatParticipants := some x } } =
        .ok (none, { Message := some { VideoChatParticipants := some x } }) ∧
      b.SelectHandlerForUpdate pkg { Message := some { VideoChatScheduled := some x } } =
        .ok (none, { Message := some { VideoChatScheduled := some x } }) ∧
      b.SelectHandlerForUpdate pkg { Message := some { WebAppData := some x } } =
        .ok (none, { Message := some { WebAppData := some x } }) ∧
      b.SelectHandlerForUpdate pkg { Message := some { ProximityAlert := some x } } =
        .ok (none, { Message := some { ProximityAlert := some x } }) ∧
      b.SelectHandlerForUpdate pkg { Message := some { AutoDeleteTimer := some x } } =
        .ok (none, { Message := some { AutoDeleteTimer := some x } }) := by
  refine ⟨?_, ?_, ?_, ?_, ?_, ?_, ?_, ?_, ?_, ?_, ?_, ?_, ?_, ?_, ?_⟩ <;> rfl

/-- C13 on the code: for every package and every handler table, an Update
whose only populated top-level field is `EditedMessage`, `ChannelPost` (with
or without a pinned notice) or `EditedChannelPost` selects no handler: the
lookups of lines 212-228 are made and their results dropped. -/
theorem edited_and_channel_lookups_dropped (pkg : Package) (b : Bot H) (m : Message)
    (x : Body) :
    b.SelectHandlerForUpdate pkg { EditedMessage := some m } =
        .ok (none, { EditedMessage := some m }) ∧
      b.SelectHandlerForUpdate pkg { ChannelPost := some m } =
        .ok (none, { ChannelPost := some m }) ∧
      b.SelectHandlerForUpdate pkg { ChannelPost := some { m with PinnedMessage := some x } } =
        .ok (none, { ChannelPost := some { m with PinnedMessage := some x } }) ∧
      b.SelectHandlerForUpdate pkg { EditedChannelPost := some m } =
        .ok (none, { EditedChannelPost := some m }) := by
  refine ⟨?_, ?_, ?_, ?_⟩ <;> rfl

/-- C15 on the code: a migration message without `Chat` makes the call fail
with a nil dereference (line 183 reads `m.Chat.ID` unguarded), for every
package and handler table; and a bot without `Me` fails on a message with a
joined user (line 141 reads `b.Me.ID`). -/
theorem migration_without_chat_fails (pkg : Package) (b : Bot H)
    (handlers : String → Option H) (joined : User) :
    b.SelectHandlerForUpdate pkg { Message := some { MigrateTo := 5 } } =
        .error .nilDereference ∧
      Bot.SelectHandlerForUpdate pkg { Me := none, handlers := handlers }
          { Message := some { UserJoined := some joined } } =
        .error .nilDereference := by
  refine ⟨?_, ?_⟩ <;> rfl

/-- `isUserInList` with a non-nil user returns, and returns true exactly when
the list has an element with the user's identity. -/
theorem isUserInList_some (me : User) (list : List User) :
    isUserInList (some me) list = .ok (decide (∃ x ∈ list, x.ID = me.ID)) := by
  induction list with
  | nil => simp [isUserInList]
  | cons x rest ih =>
    unfold isUserInList
    by_cases hx : me.ID = x.ID
    · simp [hx]
    · have hx1 : ¬ x.ID = me.ID := fun h => hx h.symm
      simp [hx, hx1, ih]

/-- The flag `wasAdded` of a bot that has an identity: the computation
returns, and the flag is true exactly when the bot itself was added. -/
theorem wasAdded_some (b : Bot H) (m : Message) (me : User) (hme : b.Me = some me) :
    ∃ w, b.wasAdded m = .ok w ∧ (w = true ↔ BotAdded me m) := by
  unfold Bot.wasAdded BotAdded
  rw [hme]
  cases hj : m.UserJoined with
  | none =>
    cases hl : m.UsersJoined with
    | none => exact ⟨false, rfl, by simp⟩
    | some list =>
      exact ⟨decide (∃ x ∈ list, x.ID = me.ID), by simp [isUserInList_some], by simp⟩
  | some joined =>
    by_cases hid : joined.ID = me.ID
    · exact ⟨true, by simp [hid], by simp [hid]⟩
    · have hb : (joined.ID == me.ID) = false := by simp [hid]
      cases hl : m.UsersJoined with
      | none => exact ⟨false, by simp [hb], by simp [hid]⟩
      | some list =>
        exact ⟨decide (∃ x ∈ list, x.ID = me.ID), by simp [hb, isUserInList_some],
          by simp [hid]⟩

/-- No media handler for a message without media. -/
theorem getMediaHandler_noMedia (pkg : Package) (b : Bot H) (m : Message) (h : NoMedia m) :
    b.getMediaHandler pkg m = (none, false) := by
  obtain ⟨h1, h2, h3, h4, h5, h6, h7, h8⟩ := h
  simp [Bot.getMediaHandler, h1, h2, h3, h4, h5, h6, h7, h8]

/-- The marker chain of a message without the early markers starts at the
join and creation checks of lines 141-149. -/
theorem selectMarker_late (pkg : Package) (b : Bot H) (m : Message) (h : NoEarlyMarker m) :
    b.selectMarker pkg m =
      match b.wasAdded m with
      | .error e => .error e
      | .ok wasAdded =>
        if m.GroupCreated || m.SuperGroupCreated || wasAdded then
          .ok (some (b.getHandler pkg.OnAddedToGroup), m)
        else if m.UserJoined.isSome || m.UsersJoined.isSome then
          .ok (some (b.getHandler pkg.OnUserJoined), m)
        else
          match migrate m with
          | .error e => .error e
          | .ok m => .ok (none, m) := by
  obtain ⟨h1, h2, h3, h4, h5, h6, h7, h8, h9, h10, h11, h12, h13, h14, h15⟩ := h
  unfold Bot.selectMarker
  simp only [h1, h2, h3, h4, h5, h6, h7, h8, h9, h10, h11, h12, h13, h14, h15,
    Option.isSome_none, Bool.false_eq_true, if_false]

/-- A message without pinned notice, text and media is routed by
`selectMarker` on the sanitized message. -/
theorem select_marker (pkg : Package) (b : Bot H) (u : Update) (m : Message)
    (hm : u.Message = some m) (hpin : m.PinnedMessage = none) (htext : sanitized m = "")
    (hmedia : NoMedia m) :
    b.SelectHandlerForUpdate pkg u =
      match b.selectMarker pkg { m with Text := sanitized m } with
      | .error e => .error e
      | .ok (some h, m1) => .ok (h, u.withMessage m1)
      | .ok (none, m1) => b.selectOther pkg (u.withMessage m1) := by
  unfold Bot.SelectHandlerForUpdate Bot.selectMessage
  have hp : m.PinnedMessage.isSome = false := by simp [hpin]
  have h1 : TrimLeft m.Text "\x07" = "" := htext
  have hg : b.getMediaHandler pkg { m with Text := "" } = (none, false) :=
    getMediaHandler_noMedia pkg b { m with Text := "" } hmedia
  simp only [hm, hp, Bool.false_eq_true, if_false, ne_eq, h1, not_true_eq_false, hg,
    sanitized, Update.withMessage]

/-- C19. For a message without pinned notice, with empty sanitized text, no
media and none of the markers contact through write access allowed, routed by
a bot whose identity is `me`: `isUserInList` returns true exactly when the
list has an element with the identity of the user; if the group-created or
supergroup-created marker is set or the bot itself was added (as single
joined user or in the joined-users list), the `OnAddedToGroup` handler is
selected; if none of these holds and a joined user or a joined-users list is
present, the `OnUserJoined` handler is selected. -/
theorem added_to_group_or_user_joined (pkg : Package) (b : Bot H) (u : Update) (m : Message)
    (me : User) (hm : u.Message = some m) (hpin : m.PinnedMessage = none)
    (htext : sanitized m = "") (hmedia : NoMedia m) (hmark : NoEarlyMarker m)
    (hme : b.Me = some me) :
    (∀ list, isUserInList (some me) list = .ok (decide (∃ x ∈ list, x.ID = me.ID))) ∧
      (m.GroupCreated = true ∨ m.SuperGroupCreated = true ∨ BotAdded me m →
        b.SelectHandlerForUpdate pkg u =
          .ok (b.getHandler pkg.OnAddedToGroup, u.withMessage { m with Text := sanitized m })) ∧
      (¬ (m.GroupCreated = true ∨ m.SuperGroupCreated = true ∨ BotAdded me m) →
        m.UserJoined ≠ none ∨ m.UsersJoined ≠ none →
        b.SelectHandlerForUpdate pkg u =
          .ok (b.getHandler pkg.OnUserJoined, u.withMessage { m with Text := sanitized m })) := by
  have hsel := select_marker pkg b u m hm hpin htext hmedia
  obtain ⟨w, hw, hiff⟩ := wasAdded_some b { m with Text := sanitized m } me hme
  have hadd : BotAdded me { m with Text := sanitized m } ↔ BotAdded me m := Iff.rfl
  rw [selectMarker_late pkg b { m with Text := sanitized m } hmark, hw] at hsel
  refine ⟨isUserInList_some me, ?_, ?_⟩
  · intro hcase
    rw [hsel]
    have hc : (m.GroupCreated || m.SuperGroupCreated || w) = true := by
      rcases hcase with h | h | h
      · simp [h]
      · simp [h]
      · simp [hiff.mpr (hadd.mpr h)]
    simp only [hc, if_true]
  · intro hcase hjoin
    rw [hsel]
    have hc : (m.GroupCreated || m.SuperGroupCreated || w) = false := by
      simp only [not_or] at hcase
      obtain ⟨h1, h2, h3⟩ := hcase
      have hw0 : w = false := by
        cases w with
        | false => rfl
        | true => exact absurd (hadd.mp (hiff.mp rfl)) h3
      simp [h1, h2, hw0]
    have hj : (m.UserJoined.isSome || m.UsersJoined.isSome) = true := by
      rcases hjoin with h | h
      · simp [Option.isSome_iff_ne_none.mpr h]
      · simp [Option.isSome_iff_ne_none.mpr h]
    simp only [hc, Bool.false_eq_true, if_false, hj, if_true]

/-- C19 at a joined-users list that holds the bot (identity 1), and at a
single joined user who is somebody else. -/
theorem added_to_group_or_user_joined_witness :
    (myBot [("\x07added_to_group", 1), ("\x07user_joined", 2)]).SelectHandlerForUpdate pkg0
          { Message := some { UsersJoined := some [⟨5, "a"⟩, ⟨1, "MyBot"⟩] } } =
        .ok (some 1, { Message := some { UsersJoined := some [⟨5, "a"⟩, ⟨1, "MyBot"⟩] } }) ∧
      (myBot [("\x07added_to_group", 1), ("\x07user_joined", 2)]).SelectHandlerForUpdate pkg0
          { Message := some { UserJoined := some ⟨5, "a"⟩ } } =
        .ok (some 2, { Message := some { UserJoined := some ⟨5, "a"⟩ } }) :=
  ⟨(added_to_group_or_user_joined pkg0
      (myBot [("\x07added_to_group", 1), ("\x07user_joined", 2)])
      { Message := some { UsersJoined := some [⟨5, "a"⟩, ⟨1, "MyBot"⟩] } }
      { UsersJoined := some [⟨5, "a"⟩, ⟨1, "MyBot"⟩] } ⟨1, "MyBot"⟩ rfl rfl rfl
      ⟨rfl, rfl, rfl, rfl, rfl, rfl, rfl, rfl⟩
      ⟨rfl, rfl, rfl, rfl, rfl, rfl, rfl, rfl, rfl, rfl, rfl, rfl, rfl, rfl, rfl⟩ rfl).2.1
      (Or.inr (Or.inr (Or.inr ⟨_, rfl, ⟨1, "MyBot"⟩, by simp, rfl⟩))),
   (added_to_group_or_user_joined pkg0
      (myBot [("\x07added_to_group", 1), ("\x07user_joined", 2)])
      { Message := some { UserJoined := some ⟨5, "a"⟩ } }
      { UserJoined := some ⟨5, "a"⟩ } ⟨1, "MyBot"⟩ rfl rfl rfl
      ⟨rfl, rfl, rfl, rfl, rfl, rfl, rfl, rfl⟩
      ⟨rfl, rfl, rfl, rfl, rfl, rfl, rfl, rfl, rfl, rfl, rfl, rfl, rfl, rfl, rfl⟩ rfl).2.2
      (by simp [BotAdded]) (Or.inl (by simp))⟩

/-- What `selectText` returns: the message changes in `Command` and `Payload`
at most, and a second run on the returned message returns the same. -/
theorem selectText_ok (pkg : Package) (b : Bot H) (m m' : Message) (h : Option H)
    (hsel : b.selectText pkg m = .ok (h, m')) :
    m' = { m with Command := m'.Command, Payload := m'.Payload } ∧
      b.selectText pkg m' = .ok (h, m') := by
  unfold Bot.selectText at hsel
  cases hrx : pkg.cmdRx.FindAllStringSubmatch m.Text with
  | nil =>
    simp only [hrx, Except.ok.injEq, Prod.mk.injEq] at hsel
    obtain ⟨hh, rfl⟩ := hsel
    refine ⟨rfl, ?_⟩
    unfold Bot.selectText
    simp only [hrx, hh]
  | cons m0 rest =>
    simp only [hrx] at hsel
    cases h1 : index m0 1 with
    | error e => simp [h1] at hsel
    | ok command =>
      simp only [h1] at hsel
      cases h3 : index m0 3 with
      | error e => simp [h3] at hsel
      | ok botName =>
        simp only [h3] at hsel
        cases ho : b.otherBot pkg botName with
        | error e => simp [ho] at hsel
        | ok other =>
          cases other with
          | true =>
            simp only [ho, Except.ok.injEq, Prod.mk.injEq] at hsel
            obtain ⟨hh, rfl⟩ := hsel
            refine ⟨rfl, ?_⟩
            unfold Bot.selectText
            simp only [hrx, h1, h3, ho, hh]
          | false =>
            simp only [ho] at hsel
            cases h5 : index m0 5 with
            | error e => simp [h5] at hsel
            | ok payload =>
              simp only [h5] at hsel
              have hfix : b.selectText pkg { m with Command := command, Payload := payload } =
                  b.selectText pkg m := by
                unfold Bot.selectText Bot.textHandler
                simp only [hrx, h1, h3, ho, h5]
              have hval : b.selectText pkg m = .ok (h, m') := by
                unfold Bot.selectText
                simp only [hrx, h1, h3, ho, h5]
                exact hsel
              have hm' : m' = { m with Command := command, Payload := payload } := by
                cases hc : b.getHandler command with
                | some hd => simp [hc] at hsel; exact hsel.2.symm
                | none =>
                  cases hc2 : b.getHandler pkg.OnCommand with
                  | some hd => simp [hc, hc2] at hsel; exact hsel.2.symm
                  | none => simp [hc, hc2] at hsel; exact hsel.2.symm
              subst hm'
              exact ⟨rfl, hfix.trans hval⟩

/-- What `migrate` returns: the message changes in `MigrateFrom` at most, and a
second run on the returned message returns it again. -/
theorem migrate_ok (m m' : Message) (hmig : migrate m = .ok m') :
    m' = { m with MigrateFrom := m'.MigrateFrom } ∧ migrate m' = .ok m' := by
  unfold migrate at hmig
  by_cases h0 : m.MigrateTo = 0
  · simp only [ne_eq, h0, not_true_eq_false, if_false, Except.ok.injEq] at hmig
    subst hmig
    refine ⟨rfl, ?_⟩
    unfold migrate
    simp only [ne_eq, h0, not_true_eq_false, if_false]
  · simp only [ne_eq, h0, not_false_eq_true, if_true] at hmig
    cases hc : m.Chat with
    | none => simp [hc] at hmig
    | some chat =>
      simp only [hc, Except.ok.injEq] at hmig
      subst hmig
      refine ⟨rfl, ?_⟩
      unfold migrate
      simp only [ne_eq, h0, not_false_eq_true, if_true, hc]

/-- A message with one of the early markers makes `selectMarker` return a
lookup and leave the message as it is. -/
theorem selectMarker_early (pkg : Package) (b : Bot H) (m : Message)
    (hne : ¬ NoEarlyMarker m) : ∃ h, b.selectMarker pkg m = .ok (some h, m) := by
  unfold Bot.selectMarker
  by_cases h1 : m.Contact.isSome = true
  · exact ⟨b.getHandler pkg.OnContact, by simp only [h1, Bool.false_eq_true, if_true, if_false]⟩
  by_cases h2 : m.Location.isSome = true
  · exact ⟨b.getHandler pkg.OnLocation, by simp only [h1, h2, Bool.false_eq_true, if_true, if_false]⟩
  by_cases h3 : m.Venue.isSome = true
  · exact ⟨b.getHandler pkg.OnVenue, by simp only [h1, h2, h3, Bool.false_eq_true, if_true, if_false]⟩
  by_cases h4 : m.Game.isSome = true
  · exact ⟨b.getHandler pkg.OnGame, by simp only [h1, h2, h3, h4, Bool.false_eq_true, if_true, if_false]⟩
  by_cases h5 : m.Dice.isSome = true
  · exact ⟨b.getHandler pkg.OnDice, by simp only [h1, h2, h3, h4, h5, Bool.false_eq_true, if_true, if_false]⟩
  by_cases h6 : m.Invoice.isSome = true
  · exact ⟨b.getHandler pkg.OnInvoice, by simp only [h1, h2, h3, h4, h5, h6, Bool.false_eq_true, if_true, if_false]⟩
  by_cases h7 : m.Payment.isSome = true
  · exact ⟨b.getHandler pkg.OnPayment, by simp only [h1, h2, h3, h4, h5, h6, h7, Bool.false_eq_true, if_true, if_false]⟩
  by_cases h8 : m.RefundedPayment.isSome = true
  · exact ⟨b.getHandler pkg.OnRefund, by simp only [h1, h2, h3, h4, h5, h6, h7, h8, Bool.false_eq_true, if_true, if_false]⟩
  by_cases h9 : m.TopicCreated.isSome = true
  · exact ⟨b.getHandler pkg.OnTopicCreated, by simp only [h1, h2, h3, h4, h5, h6, h7, h8, h9, Bool.false_eq_true, if_true, if_false]⟩
  by_cases h10 : m.TopicReopened.isSome = true
  · exact ⟨b.getHandler pkg.OnTopicReopened, by simp only [h1, h2, h3, h4, h5, h6, h7, h8, h9, h10, Bool.false_eq_true, if_true, if_false]⟩
  by_cases h11 : m.TopicClosed.isSome = true
  · exact ⟨b.getHandler pkg.OnTopicClosed, by simp only [h1, h2, h3, h4, h5, h6, h7, h8, h9, h10, h11, Bool.false_eq_true, if_true, if_false]⟩
  by_cases h12 : m.TopicEdited.isSome = true
  · exact ⟨b.getHandler pkg.OnTopicEdited, by simp only [h1, h2, h3, h4, h5, h6, h7, h8, h9, h10, h11, h12, Bool.false_eq_true, if_true, if_false]⟩
  by_cases h13 : m.GeneralTopicHidden.isSome = true
  · exact ⟨b.getHandler pkg.OnGeneralTopicHidden, by simp only [h1, h2, h3, h4, h5, h6, h7, h8, h9, h10, h11, h12, h13, Bool.false_eq_true, if_true, if_false]⟩
  by_cases h14 : m.GeneralTopicUnhidden.isSome = true
  · exact ⟨b.getHandler pkg.OnGeneralTopicUnhidden, by simp only [h1, h2, h3, h4, h5, h6, h7, h8, h9, h10, h11, h12, h13, h14, Bool.false_eq_true, if_true, if_false]⟩
  by_cases h15 : m.WriteAccessAllowed.isSome = true
  · exact ⟨b.getHandler pkg.OnWriteAccessAllowed, by simp only [h1, h2, h3, h4, h5, h6, h7, h8, h9, h10, h11, h12, h13, h14, h15, Bool.false_eq_true, if_true, if_false]⟩
  · exfalso
    apply hne
    simp only [Bool.not_eq_true, Option.not_isSome, Option.isNone_iff_eq_none] at h1 h2 h3 h4 h5 h6 h7 h8 h9 h10 h11 h12 h13 h14 h15
    exact ⟨h1, h2, h3, h4, h5, h6, h7, h8, h9, h10, h11, h12, h13, h14, h15⟩

/-- What `selectMarker` returns: the message changes in `MigrateFrom` at most,
and a second run on the returned message returns the same. -/
theorem selectMarker_ok (pkg : Package) (b : Bot H) (m m' : Message) (r : Option (Option H))
    (hsel : b.selectMarker pkg m = .ok (r, m')) :
    m' = { m with MigrateFrom := m'.MigrateFrom } ∧ b.selectMarker pkg m' = .ok (r, m') := by
  have hcopy := hsel
  by_cases hearly : NoEarlyMarker m
  swap
  · obtain ⟨h, hh⟩ := selectMarker_early pkg b m hearly
    rw [hh] at hsel
    simp only [Except.ok.injEq, Prod.mk.injEq] at hsel
    obtain ⟨-, rfl⟩ := hsel
    exact ⟨rfl, hcopy⟩
  rw [selectMarker_late pkg b m hearly] at hsel
  cases hw : b.wasAdded m with
  | error e => simp [hw] at hsel
  | ok w =>
    simp only [hw] at hsel
    split_ifs at hsel with hg hj
    · simp only [Except.ok.injEq, Prod.mk.injEq] at hsel
      obtain ⟨-, rfl⟩ := hsel
      exact ⟨rfl, hcopy⟩
    · simp only [Except.ok.injEq, Prod.mk.injEq] at hsel
      obtain ⟨-, rfl⟩ := hsel
      exact ⟨rfl, hcopy⟩
    · cases hmig : migrate m with
      | error e => simp [hmig] at hsel
      | ok m2 =>
        simp only [hmig, Except.ok.injEq, Prod.mk.injEq] at hsel
        obtain ⟨rfl, rfl⟩ := hsel
        obtain ⟨hshape, hagain⟩ := migrate_ok m m2 hmig
        refine ⟨hshape, ?_⟩
        have hearly2 : NoEarlyMarker m2 := by rw [hshape]; exact hearly
        have hw2 : b.wasAdded m2 = .ok w := by rw [hshape]; exact hw
        have hg2 : (m2.GroupCreated || m2.SuperGroupCreated || w) = false := by
          rw [hshape]; simpa using hg
        have hj2 : (m2.UserJoined.isSome || m2.UsersJoined.isSome) = false := by
          rw [hshape]; simpa using hj
        rw [selectMarker_late pkg b m2 hearly2, hw2]
        simp only [hg2, hj2, Bool.false_eq_true, if_false, hagain]

/-- Trimming is idempotent. -/
theorem TrimLeft_idem (s cutset : String) :
    TrimLeft (TrimLeft s cutset) cutset = TrimLeft s cutset := by
  unfold TrimLeft
  congr 1
  show List.dropWhile _ (List.dropWhile _ s.data) = List.dropWhile _ s.data
  induction s.data with
  | nil => rfl
  | cons c cs ih =>
    by_cases hc : cutset.data.contains c = true
    · rw [List.dropWhile_cons_of_pos hc]; exact ih
    · rw [List.dropWhile_cons_of_neg hc, List.dropWhile_cons_of_neg hc]

/-- The sanitized text is a fixed point of the sanitization. -/
theorem sanitized_withText (m : Message) :
    sanitized { m with Text := sanitized m } = sanitized m :=
  TrimLeft_idem m.Text "\x07"

/-- The body of `selectMessage` on a message without pinned notice whose text
is already sanitized. -/
theorem selectMessage_of_sanitized (pkg : Package) (b : Bot H) (m : Message)
    (hpin : m.PinnedMessage = none) (hs : sanitized m = m.Text) :
    b.selectMessage pkg m =
      if m.Text ≠ "" then
        match b.selectText pkg m with
        | .error e => .error e
        | .ok (h, m1) => .ok (some h, m1)
      else
        match b.getMediaHandler pkg m with
        | (h, true) => .ok (some h, m)
        | (_, false) => b.selectMarker pkg m := by
  unfold Bot.selectMessage
  have hp : m.PinnedMessage.isSome = false := by simp [hpin]
  have hs1 : TrimLeft m.Text "\x07" = m.Text := hs
  simp only [hp, Bool.false_eq_true, if_false, hs1]

/-- Routing a message without pinned notice is routing the sanitized message. -/
theorem selectMessage_unpinned (pkg : Package) (b : Bot H) (m : Message)
    (hpin : m.PinnedMessage = none) :
    b.selectMessage pkg m = b.selectMessage pkg { m with Text := sanitized m } := by
  have hp : m.PinnedMessage.isSome = false := by simp [hpin]
  have hi : TrimLeft (TrimLeft m.Text "\x07") "\x07" = TrimLeft m.Text "\x07" :=
    TrimLeft_idem m.Text "\x07"
  unfold Bot.selectMessage
  simp only [hp, Bool.false_eq_true, if_false, sanitized, hi]

/-- What `selectMessage` returns: the message changes in `Text`, `Command`,
`Payload` and `MigrateFrom` at most, its text is the sanitized text unless a
pinned notice ended the call, and a second run on the returned message returns
the same. -/
theorem selectMessage_ok (pkg : Package) (b : Bot H) (m m' : Message) (r : Option (Option H))
    (hsel : b.selectMessage pkg m = .ok (r, m')) :
    Message.Framed m m' ∧ (m.PinnedMessage = none → m'.Text = sanitized m) ∧
      b.selectMessage pkg m' = .ok (r, m') := by
  have hcopy := hsel
  cases hpin : m.PinnedMessage with
  | some p =>
    unfold Bot.selectMessage at hsel
    simp only [hpin, Option.isSome_some, if_true, Except.ok.injEq, Prod.mk.injEq] at hsel
    obtain ⟨-, rfl⟩ := hsel
    exact ⟨rfl, fun h => by simp at h, hcopy⟩
  | none =>
    have hs1 : sanitized { m with Text := sanitized m } = sanitized m := sanitized_withText m
    rw [selectMessage_unpinned pkg b m hpin,
      selectMessage_of_sanitized pkg b { m with Text := sanitized m } hpin hs1] at hsel
    by_cases ht : sanitized m = ""
    · simp only [ne_eq, ht, not_true_eq_false, if_false] at hsel
      have ht0 : sanitized { m with Text := "" } = "" := by rw [← ht]; exact hs1
      cases hg : b.getMediaHandler pkg { m with Text := "" } with
      | mk h isMedia =>
        cases isMedia with
        | true =>
          simp only [hg, Except.ok.injEq, Prod.mk.injEq] at hsel
          obtain ⟨rfl, rfl⟩ := hsel
          refine ⟨rfl, fun _ => ht.symm, ?_⟩
          rw [selectMessage_of_sanitized pkg b { m with Text := "" } hpin ht0]
          simp only [ne_eq, not_true_eq_false, if_false, hg]
        | false =>
          simp only [hg] at hsel
          obtain ⟨hshape, hagain⟩ := selectMarker_ok pkg b _ m' r hsel
          obtain ⟨c, rfl⟩ : ∃ c, m' = { m with Text := "", MigrateFrom := c } := ⟨_, hshape⟩
          refine ⟨rfl, fun _ => ht.symm, ?_⟩
          have hg2 : b.getMediaHandler pkg { m with Text := "", MigrateFrom := c } =
              (h, false) := hg
          rw [selectMessage_of_sanitized pkg b { m with Text := "", MigrateFrom := c } hpin ht0]
          simp only [ne_eq, not_true_eq_false, if_false, hg2]
          exact hagain
    · simp only [ne_eq, ht, not_false_eq_true, if_true] at hsel
      cases hst : b.selectText pkg { m with Text := sanitized m } with
      | error e => simp [hst] at hsel
      | ok res =>
        obtain ⟨h, m2⟩ := res
        simp only [hst, Except.ok.injEq, Prod.mk.injEq] at hsel
        obtain ⟨rfl, rfl⟩ := hsel
        obtain ⟨hshape, hagain⟩ := selectText_ok pkg b _ m2 h hst
        obtain ⟨c, p, rfl⟩ : ∃ c p, m2 =
            { m with Text := sanitized m, Command := c, Payload := p } := ⟨_, _, hshape⟩
        refine ⟨rfl, fun _ => rfl, ?_⟩
        rw [selectMessage_of_sanitized pkg b
          { m with Text := sanitized m, Command := c, Payload := p } hpin hs1]
        simp only [ne_eq, ht, not_false_eq_true, if_true, hagain]

/-- Without a populated `Callback`, what follows the `Message` block returns
and leaves the Update as it is. -/
theorem selectOther_noCallback (pkg : Package) (b : Bot H) (u : Update)
    (hcb : u.Callback = none) : ∃ h, b.selectOther pkg u = .ok (h, u) := by
  unfold Bot.selectOther
  simp only [hcb]
  by_cases h1 : u.Query.isSome = true
  · exact ⟨b.getHandler pkg.OnQuery, by simp only [h1, Bool.false_eq_true, if_true, if_false]⟩
  by_cases h2 : u.InlineResult.isSome = true
  · exact ⟨b.getHandler pkg.OnInlineResult, by simp only [h1, h2, Bool.false_eq_true, if_true, if_false]⟩
  by_cases h3 : u.ShippingQuery.isSome = true
  · exact ⟨b.getHandler pkg.OnShipping, by simp only [h1, h2, h3, Bool.false_eq_true, if_true, if_false]⟩
  by_cases h4 : u.PreCheckoutQuery.isSome = true
  · exact ⟨b.getHandler pkg.OnCheckout, by simp only [h1, h2, h3, h4, Bool.false_eq_true, if_true, if_false]⟩
  by_cases h5 : u.Poll.isSome = true
  · exact ⟨b.getHandler pkg.OnPoll, by simp only [h1, h2, h3, h4, h5, Bool.false_eq_true, if_true, if_false]⟩
  by_cases h6 : u.PollAnswer.isSome = true
  · exact ⟨b.getHandler pkg.OnPollAnswer, by simp only [h1, h2, h3, h4, h5, h6, Bool.false_eq_true, if_true, if_false]⟩
  by_cases h7 : u.MyChatMember.isSome = true
  · exact ⟨b.getHandler pkg.OnMyChatMember, by simp only [h1, h2, h3, h4, h5, h6, h7, Bool.false_eq_true, if_true, if_false]⟩
  by_cases h8 : u.ChatMember.isSome = true
  · exact ⟨b.getHandler pkg.OnChatMember, by simp only [h1, h2, h3, h4, h5, h6, h7, h8, Bool.false_eq_true, if_true, if_false]⟩
  by_cases h9 : u.ChatJoinRequest.isSome = true
  · exact ⟨b.getHandler pkg.OnChatJoinRequest, by simp only [h1, h2, h3, h4, h5, h6, h7, h8, h9, Bool.false_eq_true, if_true, if_false]⟩
  by_cases h10 : u.Boost.isSome = true
  · exact ⟨b.getHandler pkg.OnBoost, by simp only [h1, h2, h3, h4, h5, h6, h7, h8, h9, h10, Bool.false_eq_true, if_true, if_false]⟩
  by_cases h11 : u.BoostRemoved.isSome = true
  · exact ⟨b.getHandler pkg.OnBoostRemoved, by simp only [h1, h2, h3, h4, h5, h6, h7, h8, h9, h10, h11, Bool.false_eq_true, if_true, if_false]⟩
  by_cases h12 : u.BusinessConnection.isSome = true
  · exact ⟨b.getHandler pkg.OnBusinessConnection, by simp only [h1, h2, h3, h4, h5, h6, h7, h8, h9, h10, h11, h12, Bool.false_eq_true, if_true, if_false]⟩
  by_cases h13 : u.BusinessMessage.isSome = true
  · exact ⟨b.getHandler pkg.OnBusinessMessage, by simp only [h1, h2, h3, h4, h5, h6, h7, h8, h9, h10, h11, h12, h13, Bool.false_eq_true, if_true, if_false]⟩
  by_cases h14 : u.EditedBusinessMessage.isSome = true
  · exact ⟨b.getHandler pkg.OnEditedBusinessMessage, by simp only [h1, h2, h3, h4, h5, h6, h7, h8, h9, h10, h11, h12, h13, h14, Bool.false_eq_true, if_true, if_false]⟩
  by_cases h15 : u.DeletedBusinessMessages.isSome = true
  · exact ⟨b.getHandler pkg.OnDeletedBusinessMessages, by simp only [h1, h2, h3, h4, h5, h6, h7, h8, h9, h10, h11, h12, h13, h14, h15, Bool.false_eq_true, if_true, if_false]⟩
  · exact ⟨none, by simp only [h1, h2, h3, h4, h5, h6, h7, h8, h9, h10, h11, h12, h13, h14, h15, Bool.false_eq_true, if_false]⟩

/-- What `selectCallback` returns: the Update as it was, or the Update with
`Unique` and `Data` of the callback rewritten. -/
theorem selectCallback_ok (pkg : Package) (b : Bot H) (u u' : Update) (cb : Callback)
    (h : Option H) (hsel : b.selectCallback pkg u cb = .ok (h, u')) :
    u' = u ∨ ∃ q p, u' = { u with Callback := some { cb with Unique := q, Data := p } } := by
  unfold Bot.selectCallback at hsel
  by_cases hs : hasSentinel cb.Data = true
  · simp only [hs, if_true] at hsel
    cases hrx : pkg.cbackRx.FindAllStringSubmatch cb.Data with
    | nil =>
      simp only [hrx, Except.ok.injEq, Prod.mk.injEq] at hsel
      exact Or.inl hsel.2.symm
    | cons m0 rest =>
      simp only [hrx] at hsel
      cases h1 : index m0 1 with
      | error e => simp [h1] at hsel
      | ok unique =>
        simp only [h1] at hsel
        cases h3 : index m0 3 with
        | error e => simp [h3] at hsel
        | ok payload =>
          simp only [h3] at hsel
          cases hreg : b.getHandler ("\x0c" ++ unique) with
          | none =>
            simp only [hreg, Except.ok.injEq, Prod.mk.injEq] at hsel
            exact Or.inl hsel.2.symm
          | some hd =>
            simp only [hreg, Except.ok.injEq, Prod.mk.injEq] at hsel
            exact Or.inr ⟨unique, payload, hsel.2.symm⟩
  · simp only [hs, Bool.false_eq_true, if_false, Except.ok.injEq, Prod.mk.injEq] at hsel
    exact Or.inl hsel.2.symm

/-- What the part after the `Message` block returns: the Update as it was, or
the Update with `Unique` and `Data` of its callback rewritten. -/
theorem selectOther_ok (pkg : Package) (b : Bot H) (u u' : Update) (h : Option H)
    (hsel : b.selectOther pkg u = .ok (h, u')) :
    u' = u ∨ ∃ cb q p, u.Callback = some cb ∧
      u' = { u with Callback := some { cb with Unique := q, Data := p } } := by
  cases hcb : u.Callback with
  | none =>
    obtain ⟨h0, hh⟩ := selectOther_noCallback pkg b u hcb
    rw [hh] at hsel
    simp only [Except.ok.injEq, Prod.mk.injEq] at hsel
    exact Or.inl hsel.2.symm
  | some cb =>
    unfold Bot.selectOther at hsel
    simp only [hcb] at hsel
    rcases selectCallback_ok pkg b u u' cb h hsel with h1 | ⟨q, p, h1⟩
    · exact Or.inl h1
    · exact Or.inr ⟨cb, q, p, rfl, h1⟩

/-- The part after the `Message` block touches the callback only, changes
`Data` and `Unique` at most, and leaves the Update alone when the callback
comes back as it was. -/
theorem selectOther_frame (pkg : Package) (b : Bot H) (u u' : Update) (h : Option H)
    (hsel : b.selectOther pkg u = .ok (h, u')) :
    u' = { u with Callback := u'.Callback } ∧
      (match u.Callback, u'.Callback with
       | some c, some c' => Callback.Framed c c'
       | none, none => True
       | _, _ => False) ∧
      (u'.Callback = u.Callback → u' = u) := by
  rcases selectOther_ok pkg b u u' h hsel with rfl | ⟨cb, q, p, hcb, rfl⟩
  · refine ⟨rfl, ?_, fun _ => rfl⟩
    cases u'.Callback with
    | none => trivial
    | some c => exact rfl
  · refine ⟨rfl, ?_, ?_⟩
    · simp only [hcb]
      exact rfl
    · intro hsame
      simp only [hcb] at hsame
      rw [hsame, ← hcb]

/-- What `SelectHandlerForUpdate` returns: the Update keeps every field other
than `Message.Text`, `Message.Command`, `Message.Payload`,
`Message.MigrateFrom`, `Callback.Data` and `Callback.Unique`; the text of a
message without pinned notice is the sanitized text; and when the callback
comes back as it was, a second call on the returned Update returns the same. -/
theorem select_ok (pkg : Package) (b : Bot H) (u u' : Update) (h : Option H)
    (hsel : b.SelectHandlerForUpdate pkg u = .ok (h, u')) :
    Update.Framed u u' ∧
      (∀ m, u.Message = some m → m.PinnedMessage = none →
        ∃ m', u'.Message = some m' ∧ m'.Text = sanitized m) ∧
      (u'.Callback = u.Callback → b.SelectHandlerForUpdate pkg u' = .ok (h, u')) := by
  have hcopy := hsel
  unfold Bot.SelectHandlerForUpdate at hsel
  cases hm : u.Message with
  | none =>
    simp only [hm] at hsel
    obtain ⟨hrest, hcb, hfix⟩ := selectOther_frame pkg b u u' h hsel
    have hm' : u'.Message = none := by rw [hrest]; exact hm
    refine ⟨⟨?_, ?_, hcb⟩, ?_, ?_⟩
    · rw [hm', ← hm]; exact hrest
    · simp only [hm, hm']
    · intro m hmm; simp at hmm
    · intro hsame
      rw [hfix hsame]
      exact hfix hsame ▸ hcopy
  | some m =>
    simp only [hm] at hsel
    cases hsm : b.selectMessage pkg m with
    | error e => simp [hsm] at hsel
    | ok res =>
      obtain ⟨r, m1⟩ := res
      obtain ⟨hframe, htext, hagain⟩ := selectMessage_ok pkg b m m1 r hsm
      cases r with
      | some hd =>
        simp only [hsm, Except.ok.injEq, Prod.mk.injEq] at hsel
        obtain ⟨rfl, rfl⟩ := hsel
        refine ⟨⟨rfl, ?_, ?_⟩, ?_, ?_⟩
        · simp only [hm]; exact hframe
        · show (match u.Callback, u.Callback with
            | some c, some c' => Callback.Framed c c'
            | none, none => True
            | _, _ => False)
          cases u.Callback with
          | none => trivial
          | some c => exact rfl
        · intro m0 hm0 hp0
          simp only [Option.some.injEq] at hm0
          subst hm0
          exact ⟨m1, rfl, htext hp0⟩
        · intro _
          unfold Bot.SelectHandlerForUpdate
          simp only [hagain]
      | none =>
        simp only [hsm] at hsel
        obtain ⟨hrest, hcb, hfix⟩ := selectOther_frame pkg b _ u' h hsel
        have hm' : u'.Message = some m1 := by rw [hrest]
        refine ⟨⟨?_, ?_, hcb⟩, ?_, ?_⟩
        · rw [hm']; exact hrest
        · simp only [hm, hm']; exact hframe
        · intro m0 hm0 hp0
          simp only [Option.some.injEq] at hm0
          subst hm0
          exact ⟨m1, hm', htext hp0⟩
        · intro hsame
          have hu' : u' = { u with Message := some m1 } := hfix hsame
          subst hu'
          unfold Bot.SelectHandlerForUpdate
          simp only [hagain]
          exact hsel

/-- C17 as stated fails: the first call on the callback data U+000C `abc|42`
selects the handler registered under U+000C `abc` and rewrites `Data` to the
payload; the second call, on the Update as the first call left it, sees the
data `42` and selects the `OnCallback` handler. -/
theorem second_call_after_callback_rewrite :
    (myBot [("\x0cabc", 7), ("\x07callback", 5)]).SelectHandlerForUpdate pkg0
          { Callback := some { Data := "\x0cabc|42" } } =
        .ok (some 7, { Callback := some { Data := "42", Unique := "abc" } }) ∧
      (myBot [("\x0cabc", 7), ("\x07callback", 5)]).SelectHandlerForUpdate pkg0
          { Callback := some { Data := "42", Unique := "abc" } } =
        .ok (some 5, { Callback := some { Data := "42", Unique := "abc" } }) :=
  ⟨rfl, rfl⟩

/-- C17, amended. When the first call returns and leaves the callback as
received (it did not take the structured-callback branch), a second call on
the Update as the first call left it selects the same handler, and leaves the
Update as it is. -/
theorem second_call_same_handler (pkg : Package) (b : Bot H) (u u' : Update) (h : Option H)
    (hfirst : b.SelectHandlerForUpdate pkg u = .ok (h, u'))
    (hcb : u'.Callback = u.Callback) :
    b.SelectHandlerForUpdate pkg u' = .ok (h, u') :=
  (select_ok pkg b u u' h hfirst).2.2 hcb

/-- C17 amended at the message `\a/start hello`: the first call sanitizes the
text and sets `Command` and `Payload`, the second call selects the same
handler. -/
theorem second_call_same_handler_witness :
    (myBot [("/start", 7)]).SelectHandlerForUpdate pkg0
        { Message := some { Text := "/start hello", Command := "/start", Payload := "hello" } } =
      .ok (some 7,
        { Message := some { Text := "/start hello", Command := "/start", Payload := "hello" } }) :=
  second_call_same_handler pkg0 (myBot [("/start", 7)])
    { Message := some { Text := "\x07/start hello" } }
    { Message := some { Text := "/start hello", Command := "/start", Payload := "hello" } }
    (some 7) rfl rfl

/-- C18 as stated fails: the call replaces `Message.Text`, which is not among
the five fields of the claim, by the sanitized text. -/
theorem text_is_rewritten :
    (myBot [("\x07text", 4)]).SelectHandlerForUpdate pkg0
          { Message := some { Text := "\x07hello, world" } } =
        .ok (some 4, { Message := some { Text := "hello, world" } }) ∧
      ("hello, world" : String) ≠ "\x07hello, world" :=
  ⟨rfl, by decide⟩

/-- C18, amended. After a call that returns, every field of the Update other
than `Message.Text`, `Message.Command`, `Message.Payload`,
`Message.MigrateFrom`, `Callback.Unique` and `Callback.Data` has the value it
had before the call. The handler table is an argument that the call only
reads. -/
theorem only_listed_fields_change (pkg : Package) (b : Bot H) (u u' : Update) (h : Option H)
    (hsel : b.SelectHandlerForUpdate pkg u = .ok (h, u')) : Update.Framed u u' :=
  (select_ok pkg b u u' h hsel).1

/-- C18 amended at a migration message with a leading BEL character as text,
in an Update that also holds a poll. -/
theorem only_listed_fields_change_witness :
    Update.Framed
      { ID := 9, Message := some { Text := "\x07", MigrateTo := 5, Chat := some ⟨4⟩ },
        Poll := some ⟨1⟩ }
      { ID := 9, Message := some { Text := "", MigrateTo := 5, Chat := some ⟨4⟩,
                                   MigrateFrom := 4 },
        Poll := some ⟨1⟩ } :=
  only_listed_fields_change pkg0 (myBot [("\x07poll", 3)])
    { ID := 9, Message := some { Text := "\x07", MigrateTo := 5, Chat := some ⟨4⟩ },
      Poll := some ⟨1⟩ }
    { ID := 9, Message := some { Text := "", MigrateTo := 5, Chat := some ⟨4⟩,
                                 MigrateFrom := 4 },
      Poll := some ⟨1⟩ }
    (some 3) rfl

/-- The sanitization of the source is the sanitization of the spec. -/
theorem TrimLeft_bel (t : String) : TrimLeft t "\x07" = strip t := by
  unfold TrimLeft strip
  congr 1
  have hdata : ("\x07" : String).data = ['\x07'] := rfl
  rw [hdata]
  induction t.data with
  | nil => rfl
  | cons c cs ih =>
    by_cases hc : c = '\x07'
    · have hp : (['\x07'] : List Char).contains c = true := by simp [hc]
      rw [List.dropWhile_cons_of_pos hp, ih]
      simp [stripBel, hc]
    · have hp : ¬ (['\x07'] : List Char).contains c = true := by simp [hc]
      rw [List.dropWhile_cons_of_neg hp]
      simp [stripBel, hc]

/-- What `stripBel` removes is a run of BEL characters, and what it leaves does
not begin with one. -/
theorem stripBel_spec (cs : List Char) :
    (∃ k, cs = List.replicate k '\x07' ++ stripBel cs) ∧ (stripBel cs).head? ≠ some '\x07' := by
  induction cs with
  | nil => exact ⟨⟨0, rfl⟩, by simp [stripBel]⟩
  | cons c rest ih =>
    by_cases hc : c = '\x07'
    · obtain ⟨⟨k, hk⟩, hhead⟩ := ih
      refine ⟨⟨k + 1, ?_⟩, ?_⟩
      · simp only [stripBel, hc, if_true, List.replicate_succ, List.cons_append]
        rw [← hk]
      · simpa [stripBel, hc] using hhead
    · refine ⟨⟨0, ?_⟩, ?_⟩
      · simp [stripBel, hc]
      · simp [stripBel, hc]

/-- C20. With `strip` the removal of every leading BEL character and nothing
else: for a message without pinned notice and with text `t`, the call behaves
on the Update as on the same Update with text `strip t` (same handler, same
Update left behind, same failure), after a call that returns the text of the
message is `strip t`, and a text made of BEL characters only is routed as the
empty text. -/
theorem sanitization (pkg : Package) (b : Bot H) (u : Update) (m : Message)
    (hm : u.Message = some m) (hpin : m.PinnedMessage = none) :
    ((∃ k, m.Text.data = List.replicate k '\x07' ++ (strip m.Text).data) ∧
        (strip m.Text).data.head? ≠ some '\x07') ∧
      b.SelectHandlerForUpdate pkg u =
        b.SelectHandlerForUpdate pkg (u.withMessage { m with Text := strip m.Text }) ∧
      (∀ h u', b.SelectHandlerForUpdate pkg u = .ok (h, u') →
        ∃ m', u'.Message = some m' ∧ m'.Text = strip m.Text) ∧
      ((∀ c ∈ m.Text.data, c = '\x07') →
        b.SelectHandlerForUpdate pkg u =
          b.SelectHandlerForUpdate pkg (u.withMessage { m with Text := "" })) := by
  have hstrip : sanitized m = strip m.Text := TrimLeft_bel m.Text
  have hroute : b.SelectHandlerForUpdate pkg u =
      b.SelectHandlerForUpdate pkg (u.withMessage { m with Text := strip m.Text }) := by
    rw [← hstrip]
    unfold Bot.SelectHandlerForUpdate
    simp only [hm, Update.withMessage]
    rw [← selectMessage_unpinned pkg b m hpin]
  refine ⟨stripBel_spec m.Text.data, hroute, ?_, ?_⟩
  · intro h u' hsel
    obtain ⟨m', hm', ht⟩ := (select_ok pkg b u u' h hsel).2.1 m hm hpin
    exact ⟨m', hm', ht.trans hstrip⟩
  · intro hall
    have hempty : strip m.Text = "" := by
      obtain ⟨⟨k, hk⟩, hhead⟩ := stripBel_spec m.Text.data
      unfold strip
      cases hs : stripBel m.Text.data with
      | nil => rfl
      | cons c rest =>
        exfalso
        have hc : c ∈ m.Text.data := by rw [hk, hs]; simp
        have hc7 := hall c hc
        rw [hs] at hhead
        simp [hc7] at hhead
    rw [hroute, hempty]

/-- C20 at a photo whose text is two BEL characters: it is routed as the photo
without text. -/
theorem sanitization_witness :
    (myBot [("\x07photo", 1)]).SelectHandlerForUpdate pkg0
        { Message := some { Text := "\x07\x07", Photo := some ⟨0⟩ } } =
      (myBot [("\x07photo", 1)]).SelectHandlerForUpdate pkg0
        (Update.withMessage { Message := some { Text := "\x07\x07", Photo := some ⟨0⟩ } }
          { Text := "", Photo := some ⟨0⟩ }) :=
  (sanitization pkg0 (myBot [("\x07photo", 1)])
    { Message := some { Text := "\x07\x07", Photo := some ⟨0⟩ } }
    { Text := "\x07\x07", Photo := some ⟨0⟩ } rfl rfl).2.2.2 (by decide)

/-- A message with a populated media field has a media handler slot. -/
theorem getMediaHandler_media (pkg : Package) (b : Bot H) (m : Message) (h : ¬ NoMedia m) :
    ∃ hd, b.getMediaHandler pkg m = (hd, true) := by
  have hdisj : m.Photo.isSome ∨ m.Voice.isSome ∨ m.Audio.isSome ∨ m.Animation.isSome ∨
      m.Document.isSome ∨ m.Sticker.isSome ∨ m.Video.isSome ∨ m.VideoNote.isSome := by
    by_contra hno
    simp only [not_or, Bool.not_eq_true, Option.not_isSome, Option.isNone_iff_eq_none] at hno
    exact h hno
  obtain ⟨key, -, hget⟩ := getMediaHandler_of_media pkg b m hdisj
  exact ⟨_, hget⟩

/-- On a message that holds something the `Message` block returns on, the
block does not fall through. -/
theorem selectMessage_decides (pkg : Package) (b : Bot H) (m m' : Message)
    (hdec : Decides m) : b.selectMessage pkg m ≠ .ok (none, m') := by
  intro hsel
  cases hpin : m.PinnedMessage with
  | some p =>
    unfold Bot.selectMessage at hsel
    simp [hpin] at hsel
  | none =>
    have hs1 : sanitized { m with Text := sanitized m } = sanitized m := sanitized_withText m
    rw [selectMessage_unpinned pkg b m hpin,
      selectMessage_of_sanitized pkg b { m with Text := sanitized m } hpin hs1] at hsel
    by_cases ht : sanitized m = ""
    swap
    · simp only [ne_eq, ht, not_false_eq_true, if_true] at hsel
      cases hst : b.selectText pkg { m with Text := sanitized m } with
      | error e => simp [hst] at hsel
      | ok res => simp [hst] at hsel
    simp only [ne_eq, ht, not_true_eq_false, if_false] at hsel
    by_cases hmedia : NoMedia m
    swap
    · obtain ⟨hd, hg⟩ := getMediaHandler_media pkg b { m with Text := "" } hmedia
      simp [hg] at hsel
    have hg : b.getMediaHandler pkg { m with Text := "" } = (none, false) :=
      getMediaHandler_noMedia pkg b { m with Text := "" } hmedia
    simp only [hg] at hsel
    by_cases hearly : NoEarlyMarker m
    swap
    · obtain ⟨hd, hh⟩ := selectMarker_early pkg b { m with Text := "" } hearly
      simp [hh] at hsel
    rw [selectMarker_late pkg b { m with Text := "" } hearly] at hsel
    cases hw : b.wasAdded { m with Text := "" } with
    | error e => simp [hw] at hsel
    | ok w =>
      simp only [hw] at hsel
      by_cases hg1 : (m.GroupCreated || m.SuperGroupCreated || w) = true
      · simp [hg1] at hsel
      by_cases hj1 : (m.UserJoined.isSome || m.UsersJoined.isSome) = true
      · simp [hg1, hj1] at hsel
      simp only [Bool.or_eq_true, not_or, Bool.not_eq_true] at hg1
      simp only [Bool.or_eq_true, not_or, Bool.not_eq_true, Option.not_isSome,
        Option.isNone_iff_eq_none] at hj1
      rcases hdec with h | h | h | h | h | h | h | h
      · exact h hpin
      · exact h ht
      · exact h hmedia
      · exact h hearly
      · simp [hg1.1.1] at h
      · simp [hg1.1.2] at h
      · exact h hj1.1
      · exact h hj1.2

/-- C14 as stated fails: two Updates carry the same populated message, which
holds nothing the classifier looks at, and differ in `Callback` only; the
first selects no handler, the second the `OnCallback` handler. -/
theorem later_field_decides_for_empty_message :
    (myBot [("\x07callback", 5)]).SelectHandlerForUpdate pkg0 { Message := some {} } =
        .ok (none, { Message := some {} }) ∧
      (myBot [("\x07callback", 5)]).SelectHandlerForUpdate pkg0
          { Message := some {}, Callback := some { Data := "x" } } =
        .ok (some 5, { Message := some {}, Callback := some { Data := "x" } }) :=
  ⟨rfl, rfl⟩

/-- C14, amended. For a message on which the `Message` block returns (pinned
notice, non-empty sanitized text, media, a marker contact through write access
allowed, group or supergroup created, joined user or joined-users list) there
is one outcome, determined by the bot and the message alone: every Update that
carries this message gets this handler and this rewritten message (or this
failure), and keeps all its other fields, whatever they hold. -/
theorem message_branch_wins (pkg : Package) (b : Bot H) (m : Message) (hdec : Decides m) :
    ∃ outcome : Except GoPanic (Option H × Message),
      ∀ u : Update, u.Message = some m →
        b.SelectHandlerForUpdate pkg u =
          outcome.map (fun r => (r.1, u.withMessage r.2)) := by
  refine ⟨match b.selectMessage pkg m with
    | .error e => .error e
    | .ok (some h, m') => .ok (h, m')
    | .ok (none, m') => .ok (none, m'), ?_⟩
  intro u hm
  unfold Bot.SelectHandlerForUpdate
  simp only [hm]
  cases hsm : b.selectMessage pkg m with
  | error e => rfl
  | ok res =>
    obtain ⟨r, m'⟩ := res
    cases r with
    | some h => rfl
    | none => exact absurd hsm (selectMessage_decides pkg b m m' hdec)

/-- C14 amended at a contact message: alone in its Update it selects the
`OnContact` handler, and so it does next to a populated `Callback` and
`Poll`. -/
theorem message_branch_wins_witness :
    ((myBot [("\x07contact", 3), ("\x07callback", 5)]).SelectHandlerForUpdate pkg0
        { Message := some { Contact := some ⟨0⟩ } }).map (fun r => (r.1, r.2.Message)) =
      ((myBot [("\x07contact", 3), ("\x07callback", 5)]).SelectHandlerForUpdate pkg0
        { Message := some { Contact := some ⟨0⟩ }, Callback := some { Data := "x" },
          Poll := some ⟨1⟩ }).map (fun r => (r.1, r.2.Message)) := by
  obtain ⟨outcome, hout⟩ :=
    message_branch_wins pkg0 (myBot [("\x07contact", 3), ("\x07callback", 5)])
      { Contact := some ⟨0⟩ } (Or.inr (Or.inr (Or.inr (Or.inl (by simp [NoEarlyMarker])))))
  rw [hout { Message := some { Contact := some ⟨0⟩ } } rfl,
    hout { Message := some { Contact := some ⟨0⟩ }, Callback := some { Data := "x" },
           Poll := some ⟨1⟩ } rfl]
  cases outcome <;> rfl

/-- The dispatch after a selection that returns. Under the synchronous policy
the call of `ProcessUpdate` then invokes exactly one handler exactly once, on the context built
from the Update as the selection left it: the selected handler if it is not
nil, otherwise the handler registered under `OnAny` if there is one, otherwise
the fallback handler; `OnError` is called, once, after the handler and before
the call returns, exactly when the handler returns a non-nil error, with that
error; and no goroutine is started. -/
theorem synchronous_dispatch {C E : Type} (pkg : Package) (b : Bot (HandlerFunc C E))
    (d : Dispatch C E) (u u' : Update) (sel : Option (HandlerFunc C E))
    (hsync : d.synchronous = true)
    (hsel : b.SelectHandlerForUpdate pkg u = .ok (sel, u')) :
    ∃ h : HandlerFunc C E,
      h = (match sel with
           | some h => h
           | none =>
             match b.getHandler pkg.OnAny with
             | some h => h
             | none => d.fallbackHandler) ∧
      b.ProcessUpdate pkg d u =
        .ok { inline := Event.handler h (d.NewContext u') ::
                (match h (d.NewContext u') with
                 | some err => [Event.onError err (d.NewContext u')]
                 | none => []),
              spawned := [] } := by
  refine ⟨_, rfl, ?_⟩
  unfold Bot.ProcessUpdate Dispatch.runHandler runBody
  simp only [hsel, hsync, if_true]
  cases sel with
  | some h => cases hr : h (d.NewContext u') <;> simp [hr]
  | none =>
    cases hany : b.getHandler pkg.OnAny with
    | some h => cases hr : h (d.NewContext u') <;> simp [hr]
    | none => cases hr : d.fallbackHandler (d.NewContext u') <;> simp [hr]

/-- The dispatch at `/start hello` with a handler under `/start` that returns
the error `boom`: the handler is called once, then `OnError` with `boom`. -/
theorem synchronous_dispatch_witness :
    failingBot.ProcessUpdate pkg0 syncDispatch { Message := some { Text := "/start hello" } } =
      .ok { inline :=
              [Event.handler (fun _ => some "boom")
                 { Message := some { Text := "/start hello", Command := "/start",
                                     Payload := "hello" } },
               Event.onError "boom"
                 { Message := some { Text := "/start hello", Command := "/start",
                                     Payload := "hello" } }],
            spawned := [] } := by
  obtain ⟨h, hh, hp⟩ := synchronous_dispatch pkg0 failingBot syncDispatch
    { Message := some { Text := "/start hello" } }
    { Message := some { Text := "/start hello", Command := "/start", Payload := "hello" } }
    (some (fun _ => some "boom")) rfl rfl
  subst hh
  exact hp

/-- C16 on the code: under the synchronous policy, for every package, bot and
dispatch, the call of `ProcessUpdate` on a migration message without `Chat`
fails inside the selection (line 183 reads `m.Chat.ID`, the defect of C15)
before any handler and before `OnError` is called: no handler is invoked,
where the claim says exactly one. -/
theorem process_update_fails_without_chat {C E : Type} (pkg : Package)
    (b : Bot (HandlerFunc C E)) (d : Dispatch C E) :
    b.ProcessUpdate pkg { d with synchronous := true } { Message := some { MigrateTo := 5 } } =
      .error .nilDereference := by
  unfold Bot.ProcessUpdate
  have hsel : b.SelectHandlerForUpdate pkg { Message := some { MigrateTo := 5 } } =
      .error .nilDereference := rfl
  rw [hsel]

end Telebot
